import Mathlib

/-!
# Verification of the chat-consultant profile-extraction engine

A shallow embedding of `backend/src/search_summarizer/chat_consultant.py`:
the grounding validator (`validate_extraction`, `_value_has_basis`,
`_extract_number`), the research-response classifier
(`detect_research_response`), the field-inference pass
(`_infer_fields_from_context`), the proactive-search decision
(`should_search_proactively`) and the per-turn orchestrator (`run_chat`).

Modelling conventions:
* Python strings are Lean `String`s; the Portuguese accented characters that
  occur in the code are handled explicitly by the case/accent tables below
  (Python's `str.lower`/NFKD handle the full Unicode range, out of scope here).
* JSON / dict values are the inductive `PyVal`; dicts are association lists
  (`Profile`) with Python `dict.get` / item-assignment / `pop` semantics.
* Monetary magnitudes (`_extract_number`) are rationals instead of IEEE
  floats; all values exercised by the theorems are exactly representable.
* The two external collaborators — the web search (`search_internet`, which
  wraps the network) and the language-model completion (`generate_reply`,
  which wraps the Groq client) — enter `run_chat` as oracle inputs: the
  search result of the turn and the completion outcome of the turn
  (`none` models the call raising after its retry policy is exhausted).
* The boolean uses of `re.search` are interpreted by a small existential
  regex interpreter (`Rx`); for a boolean match, greedy-vs-lazy priority is
  irrelevant, only existence of a match matters.  The few places where the
  *value* of a match is used (`_extract_number`, the digital-presence
  extractors) are implemented by dedicated scanners that follow Python's
  leftmost-then-greedy semantics.
-/

set_option maxRecDepth 10000

/- The core rational operations are shipped `irreducible`; making them
semireducible lets `decide` evaluate the monetary tolerances on concrete
inputs. -/
attribute [local semireducible] Rat.add Rat.mul Rat.inv Rat.sub

/-! ## Character tables: Python `lower`, `upper`, NFKD accent stripping -/

/-- Accented characters appearing in the source, lower case. -/
def accentLower : List Char :=
  ['á', 'à', 'â', 'ã', 'ä', 'ç', 'é', 'è', 'ê', 'í', 'ì', 'ó', 'ò', 'ô',
   'õ', 'ú', 'ù', 'ü']

/-- Accented characters appearing in the source, upper case. -/
def accentUpper : List Char :=
  ['Á', 'À', 'Â', 'Ã', 'Ä', 'Ç', 'É', 'È', 'Ê', 'Í', 'Ì', 'Ó', 'Ò', 'Ô',
   'Õ', 'Ú', 'Ù', 'Ü']

/-- Base (accent-free) letter of each entry of `accentLower`. -/
def accentBase : List Char :=
  ['a', 'a', 'a', 'a', 'a', 'c', 'e', 'e', 'e', 'i', 'i', 'o', 'o', 'o',
   'o', 'u', 'u', 'u']

def tableLookup (ks vs : List Char) (c : Char) : Char :=
  match ks, vs with
  | k :: ks', v :: vs' => if k = c then v else tableLookup ks' vs' c
  | _, _ => c

/-- Python `str.lower` on one character (ASCII + the accented set). -/
def pyLowerChar (c : Char) : Char :=
  if 'A' ≤ c ∧ c ≤ 'Z' then Char.ofNat (c.toNat + 32)
  else tableLookup accentUpper accentLower c

/-- Python `str.upper` on one character (ASCII + the accented set). -/
def pyUpperChar (c : Char) : Char :=
  if 'a' ≤ c ∧ c ≤ 'z' then Char.ofNat (c.toNat - 32)
  else tableLookup accentLower accentUpper c

def pyLower (s : String) : String := ⟨s.data.map pyLowerChar⟩

def pyUpper (s : String) : String := ⟨s.data.map pyUpperChar⟩

/-- NFKD-decompose and drop combining marks, on one (lower-cased) char. -/
def stripAccentChar (c : Char) : Char := tableLookup accentLower accentBase c

/-- `_normalize`: strip accents and lowercase (`'loja física' -> 'loja fisica'`). -/
def normalizeTxt (text : String) : String :=
  ⟨(pyLower text).data.map stripAccentChar⟩

/-- Python `str.isspace` characters relevant here (`\s`). -/
def isPySpace (c : Char) : Bool :=
  c = ' ' ∨ c = '\t' ∨ c = '\n' ∨ c = '\x0d' ∨ c = '\x0b' ∨ c = '\x0c'

/-- Python `\d` (ASCII range; no non-ASCII digits occur in the inputs). -/
def isPyDigit (c : Char) : Bool := '0' ≤ c ∧ c ≤ '9'

def isAsciiAlpha (c : Char) : Bool := ('a' ≤ c ∧ c ≤ 'z') ∨ ('A' ≤ c ∧ c ≤ 'Z')

/-- Python `\w`: alphanumerics (incl. the accented letters) and underscore. -/
def isPyWordChar (c : Char) : Bool :=
  isAsciiAlpha c ∨ isPyDigit c ∨ c = '_' ∨ accentLower.contains c ∨
    accentUpper.contains c

/-! ## Basic string helpers (Python semantics) -/

def dropLeadingSpaces : List Char → List Char
  | [] => []
  | c :: t => if isPySpace c then dropLeadingSpaces t else c :: t

/-- Python `str.strip()` (default whitespace strip). -/
def pyStrip (s : String) : String :=
  ⟨(dropLeadingSpaces (dropLeadingSpaces s.data.reverse).reverse)⟩

def isInfixList (needle : List Char) : List Char → Bool
  | [] => needle.isPrefixOf []
  | c :: t => needle.isPrefixOf (c :: t) || isInfixList needle t

/-- Python `x in y` substring test. -/
def containsSub (hay needle : String) : Bool := isInfixList needle.data hay.data

/-- Python `str.startswith`. -/
def startsWithStr (s pre : String) : Bool := pre.data.isPrefixOf s.data

/-- Python `str.endswith`. -/
def endsWithStr (s suf : String) : Bool := suf.data.isSuffixOf s.data

def splitWsAux : List Char → List Char → List String
  | [], acc => if acc.isEmpty then [] else [⟨acc.reverse⟩]
  | c :: t, acc =>
    if isPySpace c then
      if acc.isEmpty then splitWsAux t [] else ⟨acc.reverse⟩ :: splitWsAux t []
    else splitWsAux t (c :: acc)

/-- Python `str.split()` — split on whitespace runs, dropping empty pieces. -/
def pySplitWs (s : String) : List String := splitWsAux s.data []

def splitOnAux (s0 : Char) (srest : List Char) : Nat → List Char → List Char → List String
  | _, [], acc => [⟨acc.reverse⟩]
  | 0, l, acc => [⟨acc.reverse ++ l⟩]
  | fuel + 1, c :: t, acc =>
    if (s0 :: srest).isPrefixOf (c :: t) then
      ⟨acc.reverse⟩ :: splitOnAux s0 srest fuel (t.drop srest.length) []
    else splitOnAux s0 srest fuel t (c :: acc)

/-- Python `str.split(sep)` for a nonempty separator.  (The fuel starts at the
text's length; every step of the scan consumes at least one character, so it
never runs out.) -/
def pySplitOn (s sep : String) : List String :=
  match sep.data with
  | [] => [s]
  | c :: cs => splitOnAux c cs s.data.length s.data []

/-- Python `str.split(sep, 1)` — at most one split. -/
def pySplitOnce (s sep : String) : List String :=
  match pySplitOn s sep with
  | [] => [s]
  | [x] => [x]
  | x :: rest => [x, String.intercalate sep rest]

def replaceAllAux (p0 : Char) (prest rep : List Char) : Nat → List Char → List Char
  | _, [] => []
  | 0, l => l
  | fuel + 1, c :: t =>
    if (p0 :: prest).isPrefixOf (c :: t) then
      rep ++ replaceAllAux p0 prest rep fuel (t.drop prest.length)
    else c :: replaceAllAux p0 prest rep fuel t

/-- Python `str.replace` for a nonempty pattern.  (The fuel starts at the
text's length; every step consumes at least one character.) -/
def pyReplace (s pat rep : String) : String :=
  match pat.data with
  | [] => s
  | c :: cs => ⟨replaceAllAux c cs rep.data s.data.length s.data⟩

/-- Python join with separator. -/
def joinWith (sep : String) (l : List String) : String := String.intercalate sep l

/-- Python `str.isdigit` (nonempty, all digits). -/
def pyIsDigit (s : String) : Bool := s.data ≠ [] ∧ s.data.all isPyDigit

def digitsToNatAux : List Char → Nat → Nat
  | [], acc => acc
  | c :: t, acc => digitsToNatAux t (acc * 10 + (c.toNat - '0'.toNat))

def digitsToNat (l : List Char) : Nat := digitsToNatAux l 0

/-! ## A small existential regex interpreter

Interprets the boolean uses of `re.search` in the source.  `positions s r i`
computes the set of end positions of matches of `r` starting at position `i`
of `s`; `research r s` is Python's `re.search(r, s) is not None`.
-/

inductive Rx where
  | eps
  | cls (p : Char → Bool)
  | lit (s : String)
  | seq (a b : Rx)
  | alt (a b : Rx)
  | rep (a : Rx) (lo : Nat) (hi : Option Nat)
  | bol
  | eol

def ndedup (l : List Nat) : List Nat :=
  l.foldl (fun acc n => if acc.contains n then acc else acc ++ [n]) []

/-- Iterate a step function `lo..hi` times (bounded by `fuel`), collecting the
position sets reachable with an admissible repetition count. -/
def repGo (step : Nat → List Nat) : Nat → Nat → Option Nat → List Nat → List Nat
  | 0, lo, _, cur => if lo = 0 then cur else []
  | fuel + 1, lo, hi, cur =>
    let now := if lo = 0 then cur else []
    if hi = some 0 then now
    else
      let next := ndedup (cur.flatMap step)
      if next.isEmpty then now
      else now ++ repGo step fuel (lo - 1) (hi.map (· - 1)) next

def Rx.positions (s : List Char) : Rx → Nat → List Nat
  | .eps, i => [i]
  | .cls p, i => if h : i < s.length then (if p (s.get ⟨i, h⟩) then [i + 1] else []) else []
  | .lit l, i => if l.data.isPrefixOf (s.drop i) then [i + l.data.length] else []
  | .seq a b, i => ndedup ((Rx.positions s a i).flatMap (Rx.positions s b))
  | .alt a b, i => ndedup (Rx.positions s a i ++ Rx.positions s b i)
  | .rep a lo hi, i => ndedup (repGo (Rx.positions s a) (s.length + 1) lo hi [i])
  | .bol, i => if i = 0 then [i] else []
  | .eol, i =>
    if i = s.length ∨ (i + 1 = s.length ∧ (if h : i < s.length then s.get ⟨i, h⟩ = '\n' else False)) then
      [i]
    else []

/-- `re.search(r, s) is not None` — a match exists at some start position. -/
def Rx.research (r : Rx) (s : String) : Bool :=
  (List.range (s.data.length + 1)).any (fun i => ¬ (r.positions s.data i).isEmpty)

/-- Alternation of literal strings. -/
def rAnyLit (l : List String) : Rx :=
  match l with
  | [] => .lit ""
  | [x] => .lit x
  | x :: rest => .alt (.lit x) (rAnyLit rest)

def rseq (l : List Rx) : Rx :=
  match l with
  | [] => .eps
  | [x] => x
  | x :: rest => .seq x (rseq rest)

/-- `.` — any character but a newline. -/
def rdot : Rx := .cls (fun c => c ≠ '\n')

/-- `.{lo,hi}` -/
def rgap (lo hi : Nat) : Rx := .rep rdot lo (some hi)

def rstar (r : Rx) : Rx := .rep r 0 none

def rplus (r : Rx) : Rx := .rep r 1 none

def ropt (r : Rx) : Rx := .rep r 0 (some 1)

/-- Character set given as a string. -/
def rcset (cs : String) : Rx := .cls (fun c => cs.data.contains c)

/-! ## `_extract_number` — monetary text to magnitude

A dedicated scanner mirroring the three `re.search` patterns of
`_extract_number` with Python's leftmost-start and greedy-group semantics.
Magnitudes are rationals (see header note on floats).
-/

def spanDigits (l : List Char) : List Char × List Char :=
  (l.takeWhile isPyDigit, l.dropWhile isPyDigit)

/-- `float(num_str)` for the digit/decimal-point strings produced here;
`none` models `ValueError`. -/
def parsePyFloat (s : String) : Option ℚ :=
  match s.data with
  | [] => none
  | l =>
    let (ip, rest) := spanDigits l
    if ip.isEmpty then none
    else
      match rest with
      | [] => some (digitsToNat ip)
      | c :: frac =>
        if c = '.' then
          let (fp, rest2) := spanDigits frac
          if rest2.isEmpty then
            some ((digitsToNat ip : ℚ) + (digitsToNat fp : ℚ) / ((10 : ℚ) ^ fp.length))
          else none
        else none

def startsLit (l : List Char) (s : String) : Bool := s.data.isPrefixOf l

def boundaryAt : List Char → Bool
  | [] => true
  | c :: _ => ¬ isPyWordChar c

/-- `\s*(?:milh[oõ]es|milh[aã]o)` at the given suffix. -/
def milhAfter (l : List Char) : Bool :=
  let r := dropLeadingSpaces l
  startsLit r "milh" &&
    (match r.drop 4 with
     | c :: rest =>
       ((c = 'o' || c = 'õ') && startsLit rest "es") ||
         ((c = 'a' || c = 'ã') && startsLit rest "o")
     | [] => false)

/-- `\s*(?:mil|k)\b` at the given suffix. -/
def milKAfter (l : List Char) : Bool :=
  let r := dropLeadingSpaces l
  (startsLit r "mil" && boundaryAt (r.drop 3)) ||
    (startsLit r "k" && boundaryAt (r.drop 1))

/-- Match `(\d+(?:[.,]\d+)?)` followed by `after`, returning the group.
Greedy: the fractional part is tried first, dropped on failure. -/
def tryNumThen (after : List Char → Bool) (l : List Char) : Option (List Char) :=
  let (d1, r1) := spanDigits l
  if d1.isEmpty then none
  else
    let withFrac : Option (List Char × List Char) :=
      match r1 with
      | c :: fr =>
        if c = '.' || c = ',' then
          let (d2, r2) := spanDigits fr
          if d2.isEmpty then none else some (d1 ++ c :: d2, r2)
        else none
      | [] => none
    match withFrac with
    | some (g, r2) =>
      if after r2 then some g else if after r1 then some d1 else none
    | none => if after r1 then some d1 else none

/-- Leftmost search: try the matcher at every suffix, left to right. -/
def scanSuffixes (f : List Char → Option α) : List Char → Option α
  | [] => f []
  | c :: t => (f (c :: t)) <|> scanSuffixes f t

/-- `(?:[.,]\d{3})*`, greedy: (consumed chars, rest).  (Fueled: the fuel
starts at the list's length and each iteration consumes four characters.) -/
def p2Star : Nat → List Char → List Char × List Char
  | _, [] => ([], [])
  | 0, l => ([], l)
  | fuel + 1, c :: t =>
    if c = '.' || c = ',' then
      match t with
      | a :: b :: d :: rest =>
        if isPyDigit a && isPyDigit b && isPyDigit d then
          let (g, r) := p2Star fuel rest
          (c :: a :: b :: d :: g, r)
        else ([], c :: t)
      | _ => ([], c :: t)
    else ([], c :: t)

/-- `(?:[.,]\d{1,2})?`, greedy. -/
def p2Opt (l : List Char) : List Char :=
  match l with
  | c :: rest =>
    if c = '.' || c = ',' then
      match rest with
      | a :: b :: _ =>
        if isPyDigit a && isPyDigit b then [c, a, b]
        else if isPyDigit a then [c, a] else []
      | [a] => if isPyDigit a then [c, a] else []
      | [] => []
    else []
  | [] => []

/-- Group of `(\d{1,3}(?:[.,]\d{3})*(?:[.,]\d{1,2})?)` at this suffix. -/
def tryP2 (l : List Char) : Option (List Char) :=
  let (run, _) := spanDigits l
  if run.isEmpty then none
  else
    let a := run.take 3
    let rest := l.drop a.length
    let (g2, rest2) := p2Star rest.length rest
    let g3 := p2Opt rest2
    some (a ++ g2 ++ g3)

/-- `match.group(1).replace(',', '.')` then `float`. -/
def groupToRat (g : List Char) : Option ℚ :=
  parsePyFloat ⟨g.map (fun c => if c = ',' then '.' else c)⟩

/-- Pattern-2 group post-processing (Brazilian separator logic) then `float`. -/
def processP2Group (g : List Char) : Option ℚ :=
  let numStr : String := ⟨g⟩
  let numStr' :=
    if g.contains ',' ∧ g.contains '.' then
      pyReplace (pyReplace numStr "." "") "," "."
    else if g.contains '.' then
      let parts := pySplitOn numStr "."
      if ((parts.getLastD "").data.length = 3 ∧ parts.length > 1) then
        pyReplace numStr "." ""
      else numStr
    else if g.contains ',' then
      let parts := pySplitOn numStr ","
      if ((parts.getLastD "").data.length = 3 ∧ parts.length > 1) then
        pyReplace numStr "," ""
      else pyReplace numStr "," "."
    else numStr
  parsePyFloat numStr'

/-- `_extract_number`: extract a numeric magnitude from monetary text. -/
def extract_number (text : String) : Option ℚ :=
  if text = "" then none
  else
    let tl := (pyStrip (pyLower text)).data
    match scanSuffixes (tryNumThen milhAfter) tl with
    | some g => (groupToRat g).map (· * 1000000)
    | none =>
      match scanSuffixes (tryNumThen milKAfter) tl with
      | some g => (groupToRat g).map (· * 1000)
      | none =>
        match scanSuffixes tryP2 tl with
        | some g => processP2Group g
        | none => none

/-! ## `_similar` — character-frequency fuzzy similarity -/

def charCount (l : List Char) (c : Char) : Nat := (l.filter (· = c)).length

/-- `_similar`: Counter-overlap ratio against a threshold. -/
def similarTxt (s1 s2 : String) (threshold : ℚ) : Bool :=
  if s1 = s2 then true
  else if s1 = "" ∨ s2 = "" then false
  else
    let len1 := s1.data.length
    let len2 := s2.data.length
    let lenMax := max len1 len2
    let lenMin := min len1 len2
    if (lenMax : ℚ) > (lenMin : ℚ) * (3 / 2 : ℚ) then false
    else
      let keys := s1.data.dedup
      let common := (keys.map (fun c => min (charCount s1.data c) (charCount s2.data c))).sum
      let total := s1.data.length
      let ratio : ℚ := if total > 0 then (common : ℚ) / (total : ℚ) else 0
      ratio ≥ threshold

/-! ## JSON / dict values and profiles -/

/-- A research-task record (`_research_tasks` entry). -/
structure RTask where
  titulo : String
  descricao : String
  categoria : String
  origem : String
  deriving DecidableEq, Repr

/-- Dynamic values held by profile dicts and model updates. -/
inductive PyVal where
  | vnone
  | vstr (s : String)
  | vlist (l : List String)
  | vpend (field : String) (suggested : PyVal) (task : String)
  | vtasks (l : List RTask)
  deriving DecidableEq, Repr

def taskRepr (t : RTask) : String :=
  "\x7b'titulo': '" ++ t.titulo ++ "', 'descricao': '" ++ t.descricao ++
    "', 'categoria': '" ++ t.categoria ++ "', 'origem': '" ++ t.origem ++ "'\x7d"

/-- Python `repr`. -/
def pyRepr : PyVal → String
  | .vnone => "None"
  | .vstr s => "'" ++ s ++ "'"
  | .vlist l => "[" ++ joinWith ", " (l.map (fun x => "'" ++ x ++ "'")) ++ "]"
  | .vpend f sv td =>
    "\x7b'field': '" ++ f ++ "', 'suggested_value': " ++ pyRepr sv ++
      ", 'task_description': '" ++ td ++ "'\x7d"
  | .vtasks l => "[" ++ joinWith ", " (l.map taskRepr) ++ "]"

/-- Python `str`. -/
def pyStr : PyVal → String
  | .vstr s => s
  | v => pyRepr v

/-- Python truthiness of a value. -/
def PyVal.truthy : PyVal → Bool
  | .vnone => false
  | .vstr s => s ≠ ""
  | .vlist l => l ≠ []
  | .vpend _ _ _ => true
  | .vtasks l => l ≠ []

/-- A Python dict keyed by strings, in insertion order. -/
abbrev Profile := List (String × PyVal)

def pfind? : Profile → String → Option PyVal
  | [], _ => none
  | (k, v) :: t, f => if k = f then some v else pfind? t f

/-- `d.get(k)` (also the value of `d[k]` when present). -/
def pget (p : Profile) (f : String) : PyVal := (pfind? p f).getD .vnone

/-- `d.get(k, default)`. -/
def pgetD (p : Profile) (f : String) (dflt : PyVal) : PyVal := (pfind? p f).getD dflt

/-- `d[k] = v` — replace in place, or append a new entry. -/
def pset : Profile → String → PyVal → Profile
  | [], f, v => [(f, v)]
  | (k, w) :: t, f, v => if k = f then (f, v) :: t else (k, w) :: pset t f v

/-- `d.pop(k, None)`'s effect on the dict. -/
def ppop (p : Profile) (f : String) : Profile := p.filter (fun kv => kv.1 ≠ f)

/-- `_fields_researched` as a list of field names. -/
def getStrList : PyVal → List String
  | .vlist l => l
  | _ => []

/-- `_research_tasks` as a list of task records. -/
def getTasks : PyVal → List RTask
  | .vtasks l => l
  | _ => []

/-! ## Field registry -/

def REQUIRED_FIELDS : List String :=
  ["nome_negocio", "segmento", "modelo", "localizacao", "dificuldades", "objetivos"]

def OPTIONAL_FIELDS : List String :=
  ["tempo_operacao", "num_funcionarios", "tipo_produto", "ticket_medio",
   "faturamento_mensal", "canais_venda", "concorrentes", "diferencial",
   "cliente_ideal", "investimento_marketing"]

def CONTEXT_FIELDS : List String :=
  ["modelo_operacional", "capital_disponivel", "principal_gargalo",
   "margem_lucro", "tempo_entrega", "origem_clientes", "maior_objecao"]

def DIGITAL_PRESENCE_FIELDS : List String :=
  ["instagram_handle", "linkedin_url", "site_url", "email_contato",
   "whatsapp_numero", "google_maps_url"]

def PRIORITY_OPTIONAL : List String :=
  ["capital_disponivel", "num_funcionarios", "canais_venda", "cliente_ideal",
   "ticket_medio", "modelo_operacional", "faturamento_mensal"]

def ALL_FIELDS : List String :=
  REQUIRED_FIELDS ++ OPTIONAL_FIELDS ++ CONTEXT_FIELDS ++ DIGITAL_PRESENCE_FIELDS

/-- `FIELD_LABELS_PT` — the source dict literal repeats some keys; a Python
dict literal keeps the last occurrence, which is what is listed here. -/
def FIELD_LABELS_PT : List (String × String) :=
  [("nome_negocio", "nome do negócio"),
   ("segmento", "segmento/nicho"),
   ("modelo", "modelo (B2B/B2C/Misto)"),
   ("localizacao", "cidade/estado"),
   ("dificuldades", "maiores dificuldades/desafios"),
   ("objetivos", "objetivos de crescimento"),
   ("tempo_operacao", "tempo de operação"),
   ("num_funcionarios", "quantas pessoas na equipe"),
   ("tipo_produto", "tipo de produto/serviço"),
   ("ticket_medio", "valor médio por venda"),
   ("faturamento_mensal", "faturamento médio mensal"),
   ("canais_venda", "onde/como vende hoje"),
   ("concorrentes", "principais concorrentes"),
   ("diferencial", "seu diferencial competitivo"),
   ("cliente_ideal", "perfil do cliente ideal"),
   ("investimento_marketing", "investimento mensal em marketing"),
   ("capital_disponivel", "quanto pode investir por mês"),
   ("modelo_operacional", "como funciona sua operação"),
   ("principal_gargalo", "principal gargalo"),
   ("margem_lucro", "margem de lucro"),
   ("tempo_entrega", "prazo de entrega"),
   ("origem_clientes", "origem dos clientes"),
   ("maior_objecao", "maior objeção dos clientes"),
   ("instagram_handle", "@ do Instagram"),
   ("linkedin_url", "LinkedIn da empresa"),
   ("site_url", "site/URL do negócio"),
   ("email_contato", "e-mail de contato"),
   ("whatsapp_numero", "número do WhatsApp"),
   ("google_maps_url", "link/nome no Google Maps")]

def sfind? : List (String × String) → String → Option String
  | [], _ => none
  | (k, v) :: t, f => if k = f then some v else sfind? t f

/-- `FIELD_LABELS_PT.get(f, f)` -/
def fieldLabel (f : String) : String := (sfind? FIELD_LABELS_PT f).getD f

/-- `RESEARCHABLE_FIELDS`: search template, description, task template.
Template placeholders are written literally (braces escaped for Lean). -/
def RESEARCHABLE_FIELDS : List (String × (String × String × String)) :=
  [("concorrentes",
    ("concorrentes de \x7btipo_produto\x7d \x7bsegmento\x7d em \x7blocalizacao\x7d lojas similares marcas",
     "Identificar concorrentes na região",
     "Realizar estudo aprofundado de concorrência: mapear os principais concorrentes de \x7bnome_negocio\x7d, suas estratégias, preços e diferenciais na região de \x7blocalizacao\x7d")),
   ("cliente_ideal",
    ("\x7bsegmento\x7d \x7btipo_produto\x7d \x7blocalizacao\x7d perfil cliente típico público-alvo quem compra",
     "Definir perfil do cliente ideal",
     "Criar persona detalhada do cliente ideal de \x7bnome_negocio\x7d: mapear demografia, comportamento de compra, dores e desejos")),
   ("diferencial",
    ("\x7bsegmento\x7d \x7btipo_produto\x7d diferencial competitivo como se destacar mercado",
     "Identificar possíveis diferenciais competitivos",
     "Definir posicionamento e diferencial competitivo de \x7bnome_negocio\x7d: análise SWOT e proposta de valor")),
   ("margem_lucro",
    ("\x7bsegmento\x7d \x7btipo_produto\x7d margem de lucro média percentual setor brasil",
     "Pesquisar margens típicas do setor",
     "Analisar estrutura de custos e margem de \x7bnome_negocio\x7d: identificar oportunidades de melhoria")),
   ("ticket_medio",
    ("\x7bsegmento\x7d \x7btipo_produto\x7d \x7blocalizacao\x7d preço médio quanto custa",
     "Pesquisar preços típicos do mercado",
     "Realizar análise de precificação para \x7bnome_negocio\x7d: comparar com concorrentes e identificar oportunidades")),
   ("principal_gargalo",
    ("\x7bsegmento\x7d \x7btipo_produto\x7d pequena empresa gargalos operacionais desafios comuns",
     "Identificar gargalos típicos do setor",
     "Diagnosticar gargalos operacionais de \x7bnome_negocio\x7d: mapear processos e identificar ineficiências")),
   ("origem_clientes",
    ("\x7bsegmento\x7d \x7btipo_produto\x7d \x7blocalizacao\x7d como conseguir clientes canais aquisição",
     "Pesquisar canais típicos de aquisição de clientes",
     "Mapear jornada de aquisição de clientes de \x7bnome_negocio\x7d: identificar os melhores canais")),
   ("maior_objecao",
    ("\x7bsegmento\x7d \x7btipo_produto\x7d objeções clientes reclamações motivos não comprar",
     "Pesquisar objeções comuns do setor",
     "Identificar e criar estratégias para superar objeções de compra dos clientes de \x7bnome_negocio\x7d"))]

def rfind? : List (String × (String × String × String)) → String → Option (String × String × String)
  | [], _ => none
  | (k, v) :: t, f => if k = f then some v else rfind? t f

def isResearchable (f : String) : Bool := (rfind? RESEARCHABLE_FIELDS f).isSome

def ALL_COLLECTIBLE_FIELDS_ORDER : List String :=
  ["nome_negocio", "segmento", "modelo", "localizacao", "dificuldades", "objetivos",
   "capital_disponivel", "num_funcionarios", "canais_venda", "cliente_ideal",
   "ticket_medio", "modelo_operacional", "faturamento_mensal",
   "tempo_operacao", "tipo_produto", "concorrentes", "diferencial",
   "principal_gargalo", "margem_lucro", "origem_clientes", "maior_objecao", "tempo_entrega",
   "instagram_handle", "linkedin_url", "site_url", "email_contato",
   "whatsapp_numero", "google_maps_url"]

def FIELD_PROMPTS_ALL : List (String × String) :=
  [("nome_negocio", "Qual o nome do seu negócio?"),
   ("segmento", "Em que segmento/área você atua?"),
   ("modelo", "Você atende empresas (B2B) ou pessoas físicas (B2C)?"),
   ("localizacao", "Em que cidade você atende?"),
   ("dificuldades", "Qual seu maior desafio hoje no negócio?"),
   ("objetivos", "Qual sua principal meta para os próximos meses?"),
   ("capital_disponivel", "Quanto você pode investir por mês em marketing/crescimento?"),
   ("num_funcionarios", "Você trabalha sozinho ou tem equipe? Quantas pessoas?"),
   ("canais_venda", "Onde/como você vende hoje? Instagram, loja física, site?"),
   ("cliente_ideal", "Descreva seu cliente ideal - idade, perfil, características."),
   ("ticket_medio", "Qual o valor médio de cada venda?"),
   ("modelo_operacional", "Como funciona sua operação? Tem estoque, trabalha sob encomenda?"),
   ("faturamento_mensal", "Qual seu faturamento médio mensal aproximadamente?"),
   ("tempo_operacao", "Há quanto tempo o negócio está operando?"),
   ("tipo_produto", "Você vende produto, serviço, ou ambos?"),
   ("concorrentes", "Quais são seus principais concorrentes?"),
   ("diferencial", "Qual é o diferencial do seu negócio?"),
   ("principal_gargalo", "Qual é o principal gargalo da sua operação?"),
   ("margem_lucro", "Qual é sua margem de lucro aproximada?"),
   ("origem_clientes", "De onde vêm seus clientes? Como eles te encontram?"),
   ("maior_objecao", "Qual é a principal objeção dos seus clientes?"),
   ("tempo_entrega", "Qual é o prazo médio de entrega?"),
   ("instagram_handle", "Qual o @ do seu Instagram?"),
   ("linkedin_url", "Tem LinkedIn da empresa? Qual o link ou nome?"),
   ("site_url", "Qual o endereço do seu site?"),
   ("email_contato", "Qual o e-mail de contato do negócio?"),
   ("whatsapp_numero", "Qual o número do WhatsApp do negócio?"),
   ("google_maps_url", "Está no Google Maps? Qual o link ou nome exato?")]

/-- `FIELD_PROMPTS_ALL.get(f, "Me conta sobre <label>?")`. -/
def fieldPrompt (f : String) : String :=
  (sfind? FIELD_PROMPTS_ALL f).getD ("Me conta sobre " ++ fieldLabel f ++ "?")

/-! ## Grounding validator -/

def ralts (l : List Rx) : Rx :=
  match l with
  | [] => .lit ""
  | [x] => x
  | x :: rest => .alt x (ralts rest)

/-- `A.*B` -/
def rgapSeq (a b : String) : Rx := rseq [.lit a, rstar rdot, .lit b]

/-- `A.{lo,hi}B` -/
def rgapN (a : String) (lo hi : Nat) (b : String) : Rx :=
  rseq [.lit a, rgap lo hi, .lit b]

def monetary_fields : List String :=
  ["capital_disponivel", "faturamento_mensal", "ticket_medio", "investimento_marketing"]

/-- The 1–3-word sliding windows over the user's words. -/
def moneyWindows (userNorm : String) : List String :=
  let ws := pySplitWs userNorm
  (List.range ws.length).flatMap (fun i =>
    [1, 2, 3].filterMap (fun size =>
      if i + size ≤ ws.length then some (joinWith " " ((ws.drop i).take size)) else none))

/-- Python `max` on two rationals. -/
def qmax (a b : ℚ) : ℚ := if a ≤ b then b else a

/-- Python `min` on two rationals. -/
def qmin (a b : ℚ) : ℚ := if a ≤ b then a else b

/-- Some window parses to a number matching `valNumber` exactly or within the
10% tolerance (`min/max >= 0.9`). -/
def moneyWindowHit (valNumber : ℚ) (userNorm : String) : Bool :=
  (moneyWindows userNorm).any (fun chunk =>
    match extract_number chunk with
    | some c =>
      valNumber = c ||
        (qmax valNumber c > 0 && qmin valNumber c / qmax valNumber c ≥ (9 / 10 : ℚ))
    | none => false)

/-- `lenient_fields`: `none` means "no pattern list" (the generic word rules). -/
def lenient_fields : List (String × Option (List Rx)) :=
  [("modelo", some [ralts [.lit "b2c", .lit "b2b", .lit "misto", .lit "d2c"]]),
   ("localizacao", none),
   ("nome_negocio", none),
   ("segmento", none),
   ("dificuldades", none),
   ("objetivos", none),
   ("canais_venda", none),
   ("investimento_marketing", none),
   ("cliente_ideal", none),
   ("capital_disponivel", none),
   ("num_funcionarios", none)]

def lenfind? : List (String × Option (List Rx)) → String → Option (Option (List Rx))
  | [], _ => none
  | (k, v) :: t, f => if k = f then some v else lenfind? t f

def detected_fields : List String :=
  ["modelo_operacional", "capital_disponivel", "principal_gargalo",
   "margem_lucro", "maior_objecao", "num_funcionarios"]

def detection_patterns : List (String × Rx) :=
  [("sob encomenda", ralts [.lit "encomenda", rgapSeq "primeiro" "paga",
      rgapSeq "depois" "envio", rgapSeq "não" "estoque", rgapSeq "sem" "estoque"]),
   ("dropshipping", ralts [.lit "dropship",
      rseq [.lit "drop", rstar (.cls isPySpace), .lit "ship"],
      rgapSeq "fornecedor" "direto", rgapSeq "não" "estoque"]),
   ("estoque próprio", ralts [.lit "estoque", rgapSeq "produtos" "loja", .lit "guardo"]),
   ("consignação", ralts [.lit "consign", .lit "parceiro", .lit "revend"]),
   ("zero", ralts [.lit "zero", rgapSeq "não" "capital", rgapSeq "sem" "dinheiro",
      rgapSeq "não" "investi", .lit "pouco", .lit "nada"]),
   ("baixo", ralts [.lit "pouco", .lit "baixo", .lit "limitado", .lit "restrito"]),
   ("credibilidade", ralts [.lit "credibilidade", .lit "confiança", .lit "desconfia",
      .lit "golpe", .lit "medo"]),
   ("tempo", ralts [.lit "sozinho", rgapSeq "não" "tempo", .lit "sobrecarreg"]),
   ("capital", ralts [.lit "capital", .lit "dinheiro", .lit "investir", .lit "recurso"]),
   ("1", ralts [.lit "só eu", .lit "sozinho", .lit "uma pessoa", .lit "eu-quipe",
      .lit "1 pessoa"]),
   ("sozinho", ralts [.lit "só eu", .lit "sozinho", .lit "uma pessoa", .lit "eu-quipe"])]

def dpfind? : List (String × Rx) → String → Option Rx
  | [], _ => none
  | (k, v) :: t, f => if k = f then some v else dpfind? t f

/-- `_value_has_basis`: does an extracted value have textual basis in the
user's messages?  `user_lower` is the lower-cased accumulated user text. -/
def value_has_basis (field : String) (value : PyVal) (user_lower : String) : Bool :=
  let user_norm := normalizeTxt user_lower
  let moneyHit : Bool :=
    match extract_number (pyStr value) with
    | some n => moneyWindowHit n user_norm
    | none => false
  if field ∈ monetary_fields ∧ moneyHit then true
  else
    match lenfind? lenient_fields field with
    | some pats? =>
      let flatVal :=
        match value with
        | .vlist l => pyLower (joinWith " " l)
        | v => pyLower (pyStr v)
      let val_norm := normalizeTxt flatVal
      match pats? with
      | none =>
        let val_words := (pySplitWs val_norm).filter (fun w => w.data.length > 1)
        let user_words := (pySplitWs user_norm).dedup
        if val_words.any (fun w => containsSub user_norm w) then true
        else if containsSub user_norm val_norm ||
            user_words.any (fun w => w.data.length > 2 && containsSub val_norm w) then true
        else if val_words.length = 1 ∧ user_words.length > 0 ∧
            user_words.any (fun uw =>
              uw.data.length > 3 && similarTxt (val_words.getD 0 "") uw (7 / 10 : ℚ)) then
          true
        else if (pySplitWs user_norm).length ≤ 5 then true
        else false
      | some pats =>
        if pats.any (fun p => p.research user_norm) then true
        else if containsSub user_norm val_norm then true
        else false
    | none =>
      match value with
      | .vlist l => l.any (fun item => containsSub user_norm (normalizeTxt item))
      | _ =>
        let val_str := pyLower (pyStr value)
        let val_norm := normalizeTxt val_str
        if field ∈ detected_fields then
          let val_clean := pyStrip val_norm
          let patHit :=
            match dpfind? detection_patterns val_clean with
            | some p => p.research user_norm
            | none => false
          if patHit then true
          else
            let concepts := (pySplitWs val_str).filterMap (fun w =>
              if w.data.length > 3 then some (normalizeTxt w) else none)
            if concepts.isEmpty then true
            else concepts.any (fun c => containsSub user_norm c)
        else
          let clean_val := pyReplace (pyReplace (pyReplace (pyReplace val_norm "." "") "," "") "r$" "") " " ""
          if pyIsDigit clean_val then
            let num_val := digitsToNat clean_val.data
            if containsSub user_norm val_norm || containsSub user_norm clean_val then true
            else if num_val ≥ 1000 ∧ num_val % 1000 = 0 then
              let thousands := toString (num_val / 1000)
              let variants := [thousands ++ " mil", thousands ++ "k",
                thousands ++ " k", thousands ++ ".000"]
              variants.any (fun v => containsSub user_norm v)
            else false
          else if val_norm.data.length ≤ 15 then
            let words := (pySplitWs val_str).filterMap (fun w =>
              if w.data.length > 2 then some (normalizeTxt w) else none)
            if words.isEmpty then containsSub user_norm val_norm
            else words.any (fun w => containsSub user_norm w)
          else
            let words := (pySplitWs val_str).filterMap (fun w =>
              if w.data.length > 3 then some (normalizeTxt w) else none)
            if words.isEmpty then true
            else
              let hits := (words.filter (fun w => containsSub user_norm w)).length
              hits ≥ min 2 words.length

def modeloOptions : List String := ["B2B", "B2C", "D2C", "MISTO"]

def socialDomains : List String :=
  ["instagram.com", "linkedin.com", "facebook.com", "twitter.com", "x.com",
   "tiktok.com", "youtube.com"]

def zeroSynonyms : List String := ["zero", "nada", "nenhum"]

/-- `r"nada|zero|nenhum|não.*posso|nao.*posso|sem.*capital|sem.*dinheiro"` -/
def zeroPatternsRx : Rx :=
  ralts [.lit "nada", .lit "zero", .lit "nenhum", rgapSeq "não" "posso",
    rgapSeq "nao" "posso", rgapSeq "sem" "capital", rgapSeq "sem" "dinheiro"]

/-- One iteration of the `validate_extraction` loop: the value this proposal
ends up contributing for its own field (`none` = proposal skipped). -/
def validateOne (field : String) (value : PyVal) (user_lower : String)
    (previous_profile : Profile) : Option PyVal :=
  if ¬ value.truthy then none
  else if field = "modelo" then
    let valUpper := pyStrip (pyUpper (pyStr value))
    if valUpper ∈ modeloOptions then some (.vstr valUpper) else none
  else if field = "segmento" ∧ pyStrip (pyUpper (pyStr value)) ∈ modeloOptions then
    none
  else if field = "site_url" ∧
      socialDomains.any (fun sd => containsSub (pyLower (pyStr value)) sd) then
    none
  else if field = "capital_disponivel" ∧
      pyStrip (pyLower (pyStr value)) ∈ zeroSynonyms ∧
      zeroPatternsRx.research user_lower then
    some value
  else if (pget previous_profile field).truthy then
    if value ≠ pget previous_profile field ∧ value_has_basis field value user_lower then
      some value
    else some (pget previous_profile field)
  else if value_has_basis field value user_lower then some value
  else none

/-- `validate_extraction`: reject hallucinated fields; previously validated
values are kept unless the new value also passes validation. -/
def validateFold (ul : String) (prev : Profile) (acc : Profile) : Profile → Profile
  | [] => acc
  | kv :: t =>
    match validateOne kv.1 kv.2 ul prev with
    | some w => validateFold ul prev (pset acc kv.1 w) t
    | none => validateFold ul prev acc t

def validate_extraction (updated_profile : Profile) (all_user_text : String)
    (previous_profile : Profile) : Profile :=
  validateFold (pyLower all_user_text) previous_profile [] updated_profile

/-! ## Research-response classifier and conversation context -/

/-- `[\s!.]*` -/
def rTrailPunct : Rx := rstar (.cls (fun c => isPySpace c || c = '!' || c = '.'))

def confirm_patterns : List Rx :=
  [rseq [.bol, rAnyLit ["sim", "ok", "tá bom", "ta bom", "pode ser", "concordo",
      "isso", "exato", "correto", "beleza", "perfeito", "legal", "certo",
      "certinho"], rTrailPunct, .eol],
   rAnyLit ["esses mesmo", "são esses", "sao esses", "concordo", "isso mesmo",
     "é isso", "certinho", "faz sentido"],
   rAnyLit ["pode ser", "tá certo", "ta certo", "isso aí", "isso ai", "valeu",
     "show", "massa", "boa"]]

def reject_patterns : List Rx :=
  [rseq [rAnyLit ["não", "nao"], rgap 0 15,
     rAnyLit ["é", "são", "sao", "concordo", "certo", "isso", "esse", "essa",
       "faz sentido"]],
   ralts [.lit "discordo", .lit "errado", .lit "incorreto", .lit "melhora",
     .lit "refaz", .lit "refaça", rgapN "pesquisa" 0 10 "de novo"],
   rAnyLit ["na verdade", "diferente", "não é bem", "nao e bem", "nada a ver",
     "sem sentido"],
   rseq [.bol, rAnyLit ["não", "nao", "n"], rTrailPunct, .eol],
   rAnyLit ["não faz sentido", "nao faz sentido"]]

/-- `detect_research_response`: rejection is checked first — negation takes
priority over partial confirm matches. -/
def detect_research_response (user_message : String) : String :=
  let msg_lower := pyStrip (pyLower user_message)
  if reject_patterns.any (fun p => p.research msg_lower) then "reject"
  else if confirm_patterns.any (fun p => p.research msg_lower) then "confirm"
  else "other"

/-- A chat message. -/
structure Msg where
  role : String
  content : String
  deriving DecidableEq, Repr

def field_keywords : List (String × List String) :=
  [("concorrentes", ["concorrente", "concorrência", "concorrencia", "competidor"]),
   ("cliente_ideal", ["cliente ideal", "público-alvo", "publico-alvo",
     "perfil do cliente", "quem compra"]),
   ("diferencial", ["diferencial", "destaca", "diferencia", "especial do seu"]),
   ("ticket_medio", ["ticket", "valor médio", "valor medio", "preço médio", "preco medio"]),
   ("margem_lucro", ["margem", "lucro", "rentabilidade"]),
   ("principal_gargalo", ["gargalo", "maior problema", "principal problema", "limitação"]),
   ("origem_clientes", ["origem", "como encontram", "onde encontram", "como te acham"]),
   ("maior_objecao", ["objeção", "objecao", "por que não compram", "desistência"]),
   ("capital_disponivel", ["investir", "capital", "orçamento", "orcamento", "quanto pode"]),
   ("num_funcionarios", ["equipe", "funcionário", "funcionario", "sozinho", "quantas pessoas"]),
   ("canais_venda", ["onde vende", "como vende", "canal de venda", "canais"]),
   ("modelo_operacional", ["operação", "operacao", "funciona sua", "estoque", "encomenda"]),
   ("faturamento_mensal", ["faturamento", "fatura", "receita mensal"]),
   ("tempo_operacao", ["há quanto tempo", "quando abriu", "quando começou", "tempo de operação"]),
   ("tipo_produto", ["produto ou serviço", "produto ou servico", "o que vende", "tipo de produto"])]

def fieldFromContent (content : String) : Option String :=
  (field_keywords.find? (fun fk => fk.2.any (fun kw => containsSub content kw))).map (·.1)

/-- `get_field_from_context`: which field the last assistant message asks about. -/
def get_field_from_context (messages : List Msg) : Option String :=
  let lastThree := messages.drop (messages.length - 3)
  let go : List Msg → Option String := fun l =>
    l.foldl (fun acc m =>
      match acc with
      | some f => some f
      | none =>
        if m.role ≠ "assistant" then none
        else fieldFromContent (pyLower m.content)) none
  go lastThree.reverse

/-! ## `_infer_fields_from_context`

Field inference from conversation history.  Boolean pattern tests use the
`Rx` interpreter; the extractors that *return* matched text are dedicated
scanners (leftmost start, greedy runs).  They agree with Python except in
backtracking corners where the extracted token itself begins with delimiter
characters — never the case in the inputs exercised here.
-/

def isAsciiAlnum (c : Char) : Bool := isAsciiAlpha c || isPyDigit c

/-- `X\b` — the literal followed by a word boundary. -/
def rwordEnd (s : String) : Rx :=
  .seq (.lit s) (.alt (.cls (fun c => ¬ isPyWordChar c)) .eol)

/-- `prod_patterns` of the `tipo_produto` block. -/
def prodPatternsRx : Rx :=
  .alt (.lit "fabric")
    (rseq [.lit "vend", rcset "oe", rstar rdot,
      rAnyLit ["brownie", "bolo", "doce", "roupa", "sapato", "produto",
        "mercadoria", "artesanato", "comida", "salgado", "camiseta",
        "acessório", "joia", "bijuteria", "cosmétic"] |>.alt
        (ralts [rseq [.lit "móve", rcset "il"], .lit "móveis", .lit "planta",
          .lit "flor", .lit "cerveja", .lit "chocolate", .lit "pão",
          .lit "queijo", .lit "vela", .lit "sabonete"])])

/-- `serv_patterns` of the `tipo_produto` block. -/
def servPatternsRx : Rx :=
  ralts [rgapSeq "presto" "servi" |>.seq (rseq [rcset "cç", .lit "o"]),
    .lit "consultoria", rgapSeq "atendo" "cliente", .lit "marido de aluguel",
    .lit "design", .lit "fotograf", .lit "advogad",
    rseq [.lit "conta", rcset "db"], .lit "coach", .lit "personal",
    .lit "aula", .lit "curso", .lit "mentori", .lit "faxin", .lit "limpeza",
    rseq [.lit "manuten", rcset "cç"]]

/-- `(?:vendo|faço|ofereço).{0,15}(?:produto|mercadoria)` -/
def prodGenericRx : Rx :=
  rseq [rAnyLit ["vendo", "faço", "ofereço"], rgap 0 15,
    rAnyLit ["produto", "mercadoria"]]

def fabricacaoRx : Rx :=
  ralts [rgapN "compro" 0 25 "ingrediente",
    rseq [.lit "fa", rcset "cç", .lit "o eu mesm"],
    .lit "fabrico", .lit "produzo", .lit "cozinho",
    rseq [.lit "fa", rcset "cç", .lit "o", rstar rdot, .lit "caseiro"],
    rseq [.lit "produ", rcset "cç", rcset "aã", .lit "o pr", rcset "oó", .lit "pria"]]

def revendaRx : Rx :=
  ralts [.lit "revend", rgapN "compro" 0 15 "pronto", .lit "import", .lit "atacado"]

def sobEncomendaRx : Rx :=
  ralts [.lit "sob encomenda", .lit "encomenda", rgapSeq "primeiro" "paga",
    rseq [.lit "depois", rstar rdot, .lit "fa", rcset "cç", .lit "o"]]

/-- The `canais_venda` checks, in source order, with the channel names. -/
def canaisChecks : List (Rx × String) :=
  [(.alt (.lit "instagram") (rwordEnd "insta"), "Instagram"),
   (ralts [.lit "na rua", .lit "ambulante", rgapSeq "vendo" "rua"], "venda na rua"),
   (ralts [.lit "whatsapp", .lit "wpp", .lit "zap"], "WhatsApp"),
   (ralts [rseq [.lit "loja", rplus (.cls isPySpace), .lit "f", rcset "ií", .lit "sica"],
     rgapSeq "ponto" "comercial", .lit "minha loja"], "loja física"),
   (ralts [.lit "site", rseq [.lit "e", ropt (.lit "-"), .lit "commerce"],
     .lit "loja virtual", .lit "shopee", .lit "mercado livre", .lit "shopify"], "online"),
   (ralts [.lit "ifood", .lit "rappi", .lit "uber eats", .lit "delivery"], "delivery")]

def soloRx : Rx :=
  ralts [.lit "trabalho sozinho", rseq [.lit "s", rcset "oó", .lit " eu"],
    rseq [.lit "eu mesm", rcset "oa"], .lit "empreendedor solo",
    .lit "somente eu", .lit "apenas eu", .lit "toco sozinho"]

/-- `[a-zA-Z0-9_.]` -/
def isHandleChar (c : Char) : Bool := isAsciiAlnum c || c = '_' || c = '.'

def takeClassAux (p : Char → Bool) : Nat → List Char → List Char × List Char
  | 0, l => ([], l)
  | _ + 1, [] => ([], [])
  | n + 1, c :: t =>
    if p c then
      let (g, r) := takeClassAux p n t
      (c :: g, r)
    else ([], c :: t)

/-- `@([a-zA-Z0-9_.]{2,30})` — the group. -/
def tryHandle (l : List Char) : Option String :=
  match l with
  | '@' :: rest =>
    let (g, _) := takeClassAux isHandleChar 30 rest
    if g.length ≥ 2 then some ⟨g⟩ else none
  | _ => none

/-- `NAME[^\w]*(?:é|e|:)?\s*(CLASS{lo,hi})` — the group (used for the
`instagram ...` and `linkedin ...` name extractors). -/
def tryAfterName (name : String) (cls : Char → Bool) (lo hi : Nat)
    (l : List Char) : Option String :=
  if startsLit l name then
    let r1 := (l.drop name.data.length).dropWhile (fun c => ¬ isPyWordChar c)
    let attempt := fun (r : List Char) =>
      let r3 := r.dropWhile isPySpace
      let (g, _) := takeClassAux cls hi r3
      if g.length ≥ lo then some (⟨g⟩ : String) else none
    match r1 with
    | c :: t =>
      if c = 'é' || c = 'e' || c = ':' then attempt t <|> attempt r1
      else attempt r1
    | [] => attempt r1
  else none

/-- `https?://[^\s]+|www\.[^\s]+|[a-zA-Z0-9-]+\.(com\.br|com|net|org|io|app)[^\s]*` -/
def trySiteAt (l : List Char) : Option String :=
  (if startsLit l "https://" then
    let run := (l.drop 8).takeWhile (fun c => ¬ isPySpace c)
    if run.isEmpty then none else some ⟨"https://".data ++ run⟩
  else if startsLit l "http://" then
    let run := (l.drop 7).takeWhile (fun c => ¬ isPySpace c)
    if run.isEmpty then none else some ⟨"http://".data ++ run⟩
  else none) <|>
  (if startsLit l "www." then
    let run := (l.drop 4).takeWhile (fun c => ¬ isPySpace c)
    if run.isEmpty then none else some ⟨"www.".data ++ run⟩
  else none) <|>
  (let run := l.takeWhile (fun c => isAsciiAlnum c || c = '-')
   if run.isEmpty then none
   else
     match l.drop run.length with
     | '.' :: r2 =>
       match ["com.br", "com", "net", "org", "io", "app"].find?
           (fun d => startsLit r2 d) with
       | some d =>
         let rest := (r2.drop d.data.length).takeWhile (fun c => ¬ isPySpace c)
         some ⟨run ++ '.' :: d.data ++ rest⟩
       | none => none
     | _ => none)

/-- `linkedin\.com/(?:company|in)/([^\s/]+)` — the group. -/
def tryLinkedinUrl (l : List Char) : Option String :=
  if startsLit l "linkedin.com/" then
    let r := l.drop 13
    if startsLit r "company/" then
      let g := (r.drop 8).takeWhile (fun c => ¬ isPySpace c ∧ c ≠ '/')
      if g.isEmpty then none else some ⟨g⟩
    else if startsLit r "in/" then
      let g := (r.drop 3).takeWhile (fun c => ¬ isPySpace c ∧ c ≠ '/')
      if g.isEmpty then none else some ⟨g⟩
    else none
  else none

def fourDigits (l : List Char) : Option (List Char × List Char) :=
  match l with
  | a :: b :: c :: d :: r =>
    if [a, b, c, d].all isPyDigit then some ([a, b, c, d], r) else none
  | _ => none

/-- `[-\s]?\d{4}`, greedy on the separator. -/
def sepThenFour (l : List Char) : Option (List Char × List Char) :=
  (match l with
   | c :: t =>
     if c = '-' || isPySpace c then (fourDigits t).map (fun gr => (c :: gr.1, gr.2))
     else none
   | [] => none) <|> fourDigits l

/-- `\d{4,5}[-\s]?\d{4}`, greedy (5 digits tried before 4). -/
def phoneTail (l : List Char) : Option (List Char × List Char) :=
  let ds := l.takeWhile isPyDigit
  (if ds.length ≥ 5 then
    (sepThenFour (l.drop 5)).map (fun gr => (l.take 5 ++ gr.1, gr.2))
  else none) <|>
  (if ds.length ≥ 4 then
    (sepThenFour (l.drop 4)).map (fun gr => (l.take 4 ++ gr.1, gr.2))
  else none)

/-- `\(?\d{2}\)?\s*` — the shared phone prefix; returns (consumed, rest). -/
def phoneHead (l : List Char) : Option (List Char × List Char) :=
  let (p1, r1) := match l with | '(' :: t => (['('], t) | _ => (([] : List Char), l)
  match r1 with
  | a :: b :: r2 =>
    if isPyDigit a ∧ isPyDigit b then
      let (p2, r3) := match r2 with | ')' :: t => ([')'], t) | _ => (([] : List Char), r2)
      let sp := r3.takeWhile isPySpace
      some (p1 ++ a :: b :: p2 ++ sp, r3.drop sp.length)
    else none
  | _ => none

/-- `(\(?\d{2}\)?\s*\d{4,5}[-\s]?\d{4})` — the group. -/
def tryPhoneCore (l : List Char) : Option String :=
  match phoneHead l with
  | some (pre, r) => (phoneTail r).map (fun gr => (⟨pre ++ gr.1⟩ : String))
  | none => none

/-- `(?:whatsapp|zap|wpp|fone|tel|celular)[^\d]*(GROUP)` — the group. -/
def tryPhoneNamed (l : List Char) : Option String :=
  match ["whatsapp", "zap", "wpp", "fone", "tel", "celular"].find?
      (fun p => startsLit l p) with
  | some p =>
    let r := (l.drop p.data.length).dropWhile (fun c => ¬ isPyDigit c)
    tryPhoneCore r
  | none => none

/-- `\(?\d{2}\)?\s*9\d{4}[-\s]?\d{4}` — the whole match. -/
def tryBarePhone (l : List Char) : Option String :=
  match phoneHead l with
  | some (pre, r) =>
    match r with
    | '9' :: r2 =>
      match fourDigits r2 with
      | some (g4, r3) =>
        (sepThenFour r3).map (fun gr => (⟨pre ++ '9' :: g4 ++ gr.1⟩ : String))
      | none => none
    | _ => none
  | none => none

def isEmailLocalChar (c : Char) : Bool :=
  isAsciiAlnum c || c = '.' || c = '_' || c = '%' || c = '+' || c = '-'

def isEmailDomainChar (c : Char) : Bool := isAsciiAlnum c || c = '.' || c = '-'

def emailDomSplit (dom : List Char) : Nat → Option (List Char)
  | 0 => none
  | k + 1 =>
    if h : k < dom.length then
      if dom.get ⟨k, h⟩ = '.' then
        let tail := (dom.drop (k + 1)).takeWhile isAsciiAlpha
        if tail.length ≥ 2 then some (dom.take k ++ '.' :: tail)
        else emailDomSplit dom k
      else emailDomSplit dom k
    else emailDomSplit dom k

/-- `[a-zA-Z0-9._%+-]+@[a-zA-Z0-9.-]+\.[a-zA-Z]{2,}` — the whole match
(the domain `+` backtracks from the longest run, as in Python). -/
def tryEmail (l : List Char) : Option String :=
  let loc := l.takeWhile isEmailLocalChar
  if loc.isEmpty then none
  else
    match l.drop loc.length with
    | '@' :: r =>
      let dom := r.takeWhile isEmailDomainChar
      (emailDomSplit dom dom.length).map (fun d => (⟨loc ++ '@' :: d⟩ : String))
    | _ => none

/-- `maps\.google\.[^\s]+|goo\.gl/maps/[^\s]+|maps\.app\.goo\.gl/[^\s]+` -/
def tryMaps (l : List Char) : Option String :=
  match ["maps.google.", "goo.gl/maps/", "maps.app.goo.gl/"].find?
      (fun p => startsLit l p) with
  | some p =>
    let run := (l.drop p.data.length).takeWhile (fun c => ¬ isPySpace c)
    if run.isEmpty then none else some ⟨p.data ++ run⟩
  | none => none

/-- `tipo_produto` inference block (empty or a single entry). -/
def inferTipoProduto (t : String) (p : Profile) : Profile :=
  if ¬ (pget p "tipo_produto").truthy then
    if prodPatternsRx.research t then [("tipo_produto", .vstr "produto")]
    else if servPatternsRx.research t then [("tipo_produto", .vstr "serviço")]
    else if prodGenericRx.research t then [("tipo_produto", .vstr "produto")]
    else []
  else []

/-- `modelo_operacional` inference block. -/
def inferModeloOperacional (t : String) (p : Profile) : Profile :=
  if ¬ (pget p "modelo_operacional").truthy then
    if fabricacaoRx.research t then [("modelo_operacional", .vstr "fabricação própria")]
    else if revendaRx.research t then [("modelo_operacional", .vstr "revenda")]
    else if sobEncomendaRx.research t then [("modelo_operacional", .vstr "sob encomenda")]
    else []
  else []

/-- `canais_venda` inference block. -/
def inferCanais (t : String) (p : Profile) : Profile :=
  if ¬ (pget p "canais_venda").truthy then
    let canais := (canaisChecks.filter (fun ck => ck.1.research t)).map (·.2)
    if canais ≠ [] then [("canais_venda", .vstr (joinWith ", " canais))] else []
  else []

/-- `num_funcionarios` inference block. -/
def inferNumFunc (t : String) (p : Profile) : Profile :=
  if ¬ (pget p "num_funcionarios").truthy then
    if soloRx.research t then [("num_funcionarios", .vstr "sozinho")] else []
  else []

/-- `instagram_handle` inference block. -/
def inferInstagram (cs : List Char) (p : Profile) : Profile :=
  if ¬ (pget p "instagram_handle").truthy then
    match scanSuffixes tryHandle cs with
    | some g => [("instagram_handle", .vstr ("@" ++ g))]
    | none =>
      match scanSuffixes (tryAfterName "instagram" isHandleChar 3 30) cs with
      | some g => [("instagram_handle", .vstr ("@" ++ g))]
      | none => []
  else []

/-- `site_url` inference block (rejecting social-network URLs). -/
def inferSite (cs : List Char) (p : Profile) : Profile :=
  if ¬ (pget p "site_url").truthy then
    match scanSuffixes trySiteAt cs with
    | some url0 =>
      let url := if startsWithStr url0 "http" then url0 else "https://" ++ url0
      if socialDomains.any (fun sd => containsSub (pyLower url) sd) then []
      else [("site_url", .vstr url)]
    | none => []
  else []

/-- `linkedin_url` inference block. -/
def inferLinkedin (cs : List Char) (p : Profile) : Profile :=
  if ¬ (pget p "linkedin_url").truthy then
    match scanSuffixes tryLinkedinUrl cs with
    | some g => [("linkedin_url", .vstr ("https://linkedin.com/company/" ++ g))]
    | none =>
      match scanSuffixes
          (tryAfterName "linkedin"
            (fun c => isAsciiAlnum c || isPySpace c || c = '-') 3 50) cs with
      | some g => [("linkedin_url", .vstr (pyStrip g))]
      | none => []
  else []

/-- `whatsapp_numero` inference block. -/
def inferWhatsapp (cs : List Char) (p : Profile) : Profile :=
  if ¬ (pget p "whatsapp_numero").truthy then
    match scanSuffixes tryPhoneNamed cs with
    | some g => [("whatsapp_numero", .vstr (pyStrip g))]
    | none =>
      match scanSuffixes tryBarePhone cs with
      | some g => [("whatsapp_numero", .vstr (pyStrip g))]
      | none => []
  else []

/-- `email_contato` inference block. -/
def inferEmail (cs : List Char) (p : Profile) : Profile :=
  if ¬ (pget p "email_contato").truthy then
    match scanSuffixes tryEmail cs with
    | some g => [("email_contato", .vstr g)]
    | none => []
  else []

/-- `google_maps_url` inference block. -/
def inferMaps (cs : List Char) (p : Profile) : Profile :=
  if ¬ (pget p "google_maps_url").truthy then
    match scanSuffixes tryMaps cs with
    | some g => [("google_maps_url", .vstr g)]
    | none => []
  else []

/-- The `site_url`-pop condition: a stored social-network URL is discarded. -/
def sitePopCond (p : Profile) : Bool :=
  (pgetD p "site_url" (.vstr "")).truthy ∧
    socialDomains.any (fun sd =>
      containsSub (pyLower (pyStr (pgetD p "site_url" (.vstr "")))) sd)

/-- `_infer_fields_from_context`: returns the inferred fields (the blocks, in
source order) and the (possibly mutated — `site_url` popped when it is a
social-network URL) input profile. -/
def infer_fields_from_context (messages : List Msg) (extracted_profile : Profile) :
    Profile × Profile :=
  let t := pyLower (joinWith " "
    ((messages.filter (fun m => m.role = "user")).map (·.content)))
  let cs := t.data
  (inferTipoProduto t extracted_profile ++ inferModeloOperacional t extracted_profile ++
    inferCanais t extracted_profile ++ inferNumFunc t extracted_profile ++
    inferInstagram cs extracted_profile ++ inferSite cs extracted_profile ++
    inferLinkedin cs extracted_profile ++ inferWhatsapp cs extracted_profile ++
    inferEmail cs extracted_profile ++ inferMaps cs extracted_profile,
   if sitePopCond extracted_profile then ppop extracted_profile "site_url"
   else extracted_profile)

/-- The merge loops `for f, v in inferred.items(): if not profile.get(f): ...`. -/
def applyInferred : Profile → Profile → Profile
  | [], p => p
  | kv :: t, p =>
    applyInferred t (if ¬ (pget p kv.1).truthy then pset p kv.1 kv.2 else p)

/-! ## Proactive-search decision -/

structure SearchDecision where
  should : Bool
  query : Option String
  purpose : Option String
  field : Option String
  deriving DecidableEq, Repr

def noSearch : SearchDecision := ⟨false, none, none, none⟩

def dont_know_patterns : List Rx :=
  [rAnyLit ["não sei", "nao sei", "pesquisa", "me ajuda", "não conheço", "nao conheco"],
   ralts [rgapSeq "vish" "não sei", .lit "não faço ideia", .lit "não tenho certeza",
     rgapSeq "ajuda" "descobrir"],
   rAnyLit ["nao tenho ideia", "sei lá", "sei la", "não sei dizer", "nao sei dizer"],
   rAnyLit ["pode pesquisar", "pesquisa pra mim", "pesquisa ai", "busca pra mim"]]

/-- Python `v or default` for profile values interpolated into queries. -/
def orStr (v : PyVal) (d : String) : String := if v.truthy then pyStr v else d

/-- f-string interpolation of `profile.get(f, "")`. -/
def fstr (p : Profile) (f : String) : String := pyStr (pgetD p f (.vstr ""))

/-- `.format(segmento=…, localizacao=…, nome_negocio=…, tipo_produto=…)`. -/
def formatSearchTemplate (tpl seg loc nome tipo : String) : String :=
  pyReplace (pyReplace (pyReplace (pyReplace tpl "\x7bsegmento\x7d" seg)
    "\x7blocalizacao\x7d" loc) "\x7bnome_negocio\x7d" nome) "\x7btipo_produto\x7d" tipo

/-- `.format(nome_negocio=…, localizacao=…, segmento=…)` for task templates. -/
def formatTaskTemplate (tpl nome loc seg : String) : String :=
  pyReplace (pyReplace (pyReplace tpl "\x7bnome_negocio\x7d" nome)
    "\x7blocalizacao\x7d" loc) "\x7bsegmento\x7d" seg

def problem_patterns : List (Rx × String × String) :=
  [(ralts [.lit "mais cliente", .lit "poucos cliente", rgapSeq "falta" "client",
      .lit "não vend", rgapSeq "dificil" "vend", rgapSeq "problema" "venda"],
    ("como conseguir mais clientes \x7bsegmento\x7d \x7blocalizacao\x7d estratégias marketing",
     "Como conseguir mais clientes")),
   (ralts [rgapSeq "não sei" "precific", rgapSeq "quanto" "cobr", .lit "preço", .lit "margem"],
    ("precificação \x7bsegmento\x7d como definir preços margem", "Ajuda com precificação")),
   (ralts [.lit "concorrênc", .lit "competiç", rgapSeq "outros" "vendêo"],
    ("concorrentes \x7bsegmento\x7d \x7blocalizacao\x7d como competir diferenciação",
     "Análise de concorrência")),
   (ralts [.lit "marketing", .lit "divulg", rgapSeq "promov" "negócio"],
    ("marketing \x7bsegmento\x7d \x7blocalizacao\x7d estratégias promocionais",
     "Estratégias de marketing"))]

/-- `(keyword, field, query)` rows of the fallback keyword map (queries are
built with the profile's current values, as the f-strings do). -/
def keywordMapRows (seg loc : String) : List (String × Option String × String) :=
  [("concorrent", some "concorrentes", "concorrentes " ++ seg ++ " " ++ loc ++ " principais empresas mercado"),
   ("cliente", some "cliente_ideal", seg ++ " " ++ loc ++ " perfil cliente típico quem compra"),
   ("público", some "cliente_ideal", seg ++ " " ++ loc ++ " perfil cliente típico público-alvo"),
   ("diferencial", some "diferencial", seg ++ " diferencial competitivo como se destacar"),
   ("margem", some "margem_lucro", seg ++ " margem de lucro média setor brasil"),
   ("lucro", some "margem_lucro", seg ++ " margem de lucro média setor brasil"),
   ("ticket", some "ticket_medio", seg ++ " " ++ loc ++ " preço médio ticket venda"),
   ("preço", some "ticket_medio", seg ++ " " ++ loc ++ " preço médio ticket venda"),
   ("gargalo", some "principal_gargalo", seg ++ " principais problemas gargalos desafios empresas"),
   ("limitação", some "principal_gargalo", seg ++ " principais limitações desafios pequenas empresas"),
   ("origem", some "origem_clientes", seg ++ " " ++ loc ++ " canais aquisição clientes marketing"),
   ("objeção", some "maior_objecao", seg ++ " objeções clientes reclamações motivos não comprar"),
   ("desafio", none, seg ++ " principais desafios problemas comuns empresas"),
   ("objetivo", none, seg ++ " objetivos crescimento metas comuns empresas")]

/-- `content.split("?")[0].split(". ")[-1].lower()` -/
def recentQuestionOf (content : String) : String :=
  pyLower (((pySplitOn ((pySplitOn content "?").getD 0 "") ". ").getLastD ""))

/-- The most recent assistant question among the last three messages. -/
def recentQuestion (messages : List Msg) : String :=
  let lastThree := messages.drop (messages.length - 3)
  lastThree.reverse.foldl (fun acc m =>
    match acc with
    | some q => some q
    | none =>
      if m.role = "assistant" ∧ containsSub m.content "?" then
        some (recentQuestionOf m.content)
      else none) none |>.getD ""

/-- First not-yet-collected collectible field in canonical order. -/
def nextCollectible (p : Profile) : Option String :=
  ALL_COLLECTIBLE_FIELDS_ORDER.find? (fun f =>
    ¬ (pget p f).truthy ∧ f ≠ "investimento_marketing" ∧ ¬ startsWithStr f "_")

/-- `should_search_proactively`. -/
def should_search_proactively (user_message : String) (messages : List Msg)
    (extracted_profile : Profile) : SearchDecision :=
  let msg_lower := pyLower user_message
  let segmento := pgetD extracted_profile "segmento" (.vstr "")
  let localizacao := pgetD extracted_profile "localizacao" (.vstr "")
  let nome := pgetD extracted_profile "nome_negocio" (.vstr "")
  let tipo_produto := pgetD extracted_profile "tipo_produto" (.vstr "")
  let past_searches := (messages.filter (fun m =>
    m.role = "assistant" ∧ containsSub m.content "🔍")).length
  let user_doesnt_know := dont_know_patterns.any (fun p => p.research msg_lower)
  if user_doesnt_know then
    let already := getStrList (pgetD extracted_profile "_fields_researched" (.vlist []))
    let next_c := nextCollectible extracted_profile
    let fctx := get_field_from_context messages
    let field : Option String :=
      match next_c with
      | some nc =>
        if isResearchable nc ∧ nc ∉ already then some nc
        else
          match fctx with
          | some fc =>
            if isResearchable fc ∧ fc ∉ already then some fc
            else ALL_COLLECTIBLE_FIELDS_ORDER.find? (fun f =>
              ¬ (pget extracted_profile f).truthy ∧ isResearchable f ∧ f ∉ already)
          | none => ALL_COLLECTIBLE_FIELDS_ORDER.find? (fun f =>
              ¬ (pget extracted_profile f).truthy ∧ isResearchable f ∧ f ∉ already)
      | none =>
        match fctx with
        | some fc =>
          if isResearchable fc ∧ fc ∉ already then some fc
          else ALL_COLLECTIBLE_FIELDS_ORDER.find? (fun f =>
            ¬ (pget extracted_profile f).truthy ∧ isResearchable f ∧ f ∉ already)
        | none => ALL_COLLECTIBLE_FIELDS_ORDER.find? (fun f =>
            ¬ (pget extracted_profile f).truthy ∧ isResearchable f ∧ f ∉ already)
    match field with
    | some f =>
      match rfind? RESEARCHABLE_FIELDS f with
      | some cfg =>
        let query := formatSearchTemplate cfg.1
          (orStr segmento "pequenos negócios") (orStr localizacao "Brasil")
          (orStr nome "negócio")
          (if tipo_produto.truthy then pyStr tipo_produto
           else if segmento.truthy then pyStr segmento else "")
        ⟨true, some query, some cfg.2.1, some f⟩
      | none => noSearch
    | none =>
      let rq := recentQuestion messages
      let rows := keywordMapRows (fstr extracted_profile "segmento")
        (fstr extracted_profile "localizacao")
      match rows.find? (fun row =>
          containsSub rq row.1 || containsSub msg_lower row.1) with
      | some row =>
        let purpose := "Pesquisa sobre " ++
          (match row.2.1 with
           | some fn => (sfind? FIELD_LABELS_PT fn).getD row.1
           | none => row.1)
        ⟨true, some row.2.2, some purpose, row.2.1⟩
      | none =>
        if segmento.truthy then
          ⟨true, some (pyStr segmento ++ " " ++ fstr extracted_profile "localizacao" ++
            " informações mercado características"), some "Pesquisa geral", none⟩
        else
          ⟨true, some (pyStr nome ++ " negócio informações mercado"),
            some "Pesquisa geral", none⟩
  else
    match problem_patterns.find? (fun pp =>
        pp.1.research msg_lower ∧ past_searches < 5) with
    | some pp =>
      let query := pyReplace (pyReplace pp.2.1 "\x7bsegmento\x7d"
        (orStr segmento "pequenos negócios")) "\x7blocalizacao\x7d" (orStr localizacao "Brasil")
      ⟨true, some query, some pp.2.2, none⟩
    | none =>
      if messages.length ≤ 4 ∧ segmento.truthy ∧ localizacao.truthy ∧ past_searches = 0 then
        ⟨true, some (pyStr segmento ++ " " ++ pyStr localizacao ++
          " mercado oportunidades público-alvo"), some "Pesquisa inicial de mercado", none⟩
      else noSearch

/-- `_check_search_relevance`. -/
def check_search_relevance (search_text : String) (segmento tipo_produto : PyVal) : Bool :=
  if search_text = "" ∨ ¬ segmento.truthy then true
  else
    let text_lower := normalizeTxt search_text
    let seg_words := (pySplitWs (normalizeTxt (pyStr segmento))).filter (fun w => w.data.length > 3)
    let tp_words := (pySplitWs (normalizeTxt (orStr tipo_produto ""))).filter (fun w => w.data.length > 3)
    let check_words := seg_words ++ tp_words
    if check_words.isEmpty then true
    else (check_words.filter (fun w => containsSub text_lower w)).length ≥ 1

/-! ## `run_chat` — data shapes and per-turn stages -/

structure Source where
  title : String
  url : String
  deriving DecidableEq, Repr

/-- Output of the `search_internet` collaborator (network, oracle input). -/
structure SearchRes where
  text : String
  sources : List Source
  deriving Repr

/-- Output of the `generate_reply` collaborator (completion client, oracle
input): the reply string and the `updated_profile` object of its JSON (or its
regex-extraction fallback).  `upd = none` models a missing key, defaulted to
the current profile; non-dict values for the key are out of scope. -/
structure GenOut where
  reply : Option String
  upd : Option Profile
  deriving Repr

structure ChatOut where
  reply : Option String
  extracted_profile : Profile
  search_performed : Bool
  search_query : Option String
  search_sources : List Source
  ready_for_analysis : Bool
  fields_collected : List String
  fields_missing : List String
  deriving DecidableEq, Repr

structure ResolveOut where
  profile : Profile
  pending : PyVal
  justResolved : Bool
  deriving Repr

/-- `r"n[aã]o sei|sei l[aá]|n[aã]o fa[cç]o ideia|n[aã]o tenho certeza|pode ser|tanto faz"` -/
def stillDontKnowRx : Rx :=
  ralts [rseq [.lit "n", rcset "aã", .lit "o sei"],
    rseq [.lit "sei l", rcset "aá"],
    rseq [.lit "n", rcset "aã", .lit "o fa", rcset "cç", .lit "o ideia"],
    rseq [.lit "n", rcset "aã", .lit "o tenho certeza"],
    .lit "pode ser", .lit "tanto faz"]

/-- The pending-research resolution block at the head of `run_chat`.  Only a
well-formed pending record (`vpend`) is modeled; the source would raise on any
other truthy value stored under `_research_pending`. -/
def resolve_pending (extracted_profile : Profile) (user_message : String) : ResolveOut :=
  let rp := pget extracted_profile "_research_pending"
  match rp with
  | .vpend pending_field pending_value task_description =>
    if user_message = "" then ⟨extracted_profile, rp, false⟩
    else
      let user_response := detect_research_response user_message
      let is_still_dont_know := stillDontKnowRx.research (pyStrip (pyLower user_message))
      let research_tasks := getTasks (pgetD extracted_profile "_research_tasks" (.vtasks []))
      let fields_researched := getStrList (pgetD extracted_profile "_fields_researched" (.vlist []))
      if user_response = "confirm" ∨ is_still_dont_know then
        let p1 := pset extracted_profile pending_field pending_value
        let p2 := pset p1 "_research_tasks" (.vtasks (research_tasks ++
          [⟨"Aprofundar: " ++ fieldLabel pending_field, task_description,
            "pesquisa", "pesquisa_assistida"⟩]))
        let fr' := if pending_field ∈ fields_researched then fields_researched
          else fields_researched ++ [pending_field]
        let p3 := pset p2 "_fields_researched" (.vlist fr')
        ⟨ppop p3 "_research_pending", .vnone, true⟩
      else if user_response = "reject" then
        let tpl := ((rfind? RESEARCHABLE_FIELDS pending_field).map (·.2.2)).getD
          "Aprofundar pesquisa"
        let taskDesc := formatTaskTemplate tpl
          (pyStr (pgetD extracted_profile "nome_negocio" (.vstr "o negócio")))
          (pyStr (pgetD extracted_profile "localizacao" (.vstr "")))
          (pyStr (pgetD extracted_profile "segmento" (.vstr "")))
        let p1 := pset extracted_profile "_research_tasks" (.vtasks (research_tasks ++
          [⟨"Pesquisar melhor: " ++ fieldLabel pending_field,
            taskDesc ++ " (pesquisa inicial rejeitada pelo usuário)",
            "pesquisa", "pesquisa_rejeitada"⟩]))
        let fr' := if pending_field ∈ fields_researched then fields_researched
          else fields_researched ++ [pending_field]
        let p2 := pset p1 "_fields_researched" (.vlist fr')
        ⟨ppop p2 "_research_pending", .vnone, true⟩
      else
        let p1 := pset extracted_profile pending_field (.vstr user_message)
        let fr' := if pending_field ∈ fields_researched then fields_researched
          else fields_researched ++ [pending_field]
        let p2 := pset p1 "_fields_researched" (.vlist fr')
        ⟨ppop p2 "_research_pending", .vnone, true⟩
  | _ => ⟨extracted_profile, rp, false⟩

structure SearchPhase where
  profile : Profile
  performed : Bool
  query : Option String
  purpose : Option String
  context : Option String
  sources : List Source
  field : Option String
  fieldFailed : Option String
  saidDontKnow : Bool
  deriving Repr

/-- The "user said they don't know" re-check done alongside the search. -/
def dontKnowEchoRx : Rx :=
  rAnyLit ["não sei", "nao sei", "sei lá", "sei la", "não faço ideia",
    "nao faco ideia", "não tenho certeza", "nao tenho certeza"]

/-- Proactive-search execution: runs the decision, consults the search oracle,
discards failed or irrelevant results (logging a research task). -/
def searchPhase (user_message : String) (messages : List Msg) (profile2 : Profile)
    (justResolved : Bool) (searchOut : SearchRes) : SearchPhase :=
  let decision := if justResolved then noSearch
    else should_search_proactively user_message messages profile2
  let saidDK := decision.should ∧ dontKnowEchoRx.research (pyLower user_message)
  let hasQ := decision.should && (match decision.query with | some q => q != "" | none => false)
  if ¬ hasQ then
    ⟨profile2, false, none, none, none, [], decision.field, none, saidDK⟩
  else
    let q := decision.query.getD ""
    let purpose := some (decision.purpose.getD "Busca de contexto")
    let ctx := searchOut.text
    if ctx = "" ∨ pyStrip ctx = "Nenhum resultado encontrado." then
      ⟨profile2, false, some q, purpose, none, [], decision.field, decision.field, saidDK⟩
    else
      let seg := pgetD profile2 "segmento" (.vstr "")
      let tp := pgetD profile2 "tipo_produto" (.vstr "")
      match decision.field with
      | some F =>
        if ¬ check_search_relevance ctx seg tp then
          let tpl := ((rfind? RESEARCHABLE_FIELDS F).map (·.2.2)).getD "Aprofundar pesquisa"
          let taskDesc := formatTaskTemplate tpl
            (pyStr (pgetD profile2 "nome_negocio" (.vstr "o negócio")))
            (pyStr (pgetD profile2 "localizacao" (.vstr ""))) (pyStr seg)
          let tasks := getTasks (pgetD profile2 "_research_tasks" (.vtasks []))
          let p3 := pset profile2 "_research_tasks" (.vtasks (tasks ++
            [⟨"Pesquisar: " ++ fieldLabel F,
              taskDesc ++ " (busca automática não retornou resultados relevantes)",
              "pesquisa", "busca_irrelevante"⟩]))
          let fr := getStrList (pgetD p3 "_fields_researched" (.vlist []))
          let fr' := if F ∈ fr then fr else fr ++ [F]
          let p4 := pset p3 "_fields_researched" (.vlist fr')
          ⟨p4, false, some q, purpose, none, [], none, some F, saidDK⟩
        else ⟨profile2, true, some q, purpose, some ctx, searchOut.sources, some F, none, saidDK⟩
      | none => ⟨profile2, true, some q, purpose, some ctx, searchOut.sources, none, none, saidDK⟩

/-- The completion outcome; `none` (the call raised) falls back to a null
reply and the previous profile as the update. -/
def effectiveGen (llmRes : Option GenOut) (profile3 : Profile) : GenOut :=
  llmRes.getD ⟨none, some profile3⟩

/-- `reply = result.get("reply") or None` -/
def replyOfGen (g : GenOut) : Option String :=
  match g.reply with
  | some r => if r = "" then none else some r
  | none => none

def optTruthy : Option String → Bool
  | some s => s ≠ ""
  | none => false

/-- Capture the research suggestion before validation would reject it. -/
def captureSuggestion (fieldR : Option String) (performed : Bool) (upd : Profile) :
    PyVal × Profile :=
  match fieldR, performed with
  | some F, true =>
    let s := pget upd F
    if s.truthy then (s, pset upd F .vnone) else (.vnone, upd)
  | _, _ => (.vnone, upd)

/-- Drop a reply that is empty or leaked prompt text. -/
def replyReset (reply : Option String) : Option String :=
  match reply with
  | some r =>
    if startsWithStr r "<ESCREVA" ∨ containsSub (pyLower r) "campo obrigatório" then none
    else some r
  | none => none

def takeStr (s : String) (n : Nat) : String := ⟨s.data.take n⟩

def isSentEnd (c : Char) : Bool := c = '.' || c = '!' || c = '?'

theorem dropLeadingSpaces_length_le (l : List Char) :
    (dropLeadingSpaces l).length ≤ l.length := by
  induction l with
  | nil => simp [dropLeadingSpaces]
  | cons c t ih =>
    simp only [dropLeadingSpaces]
    split
    · exact le_trans ih (Nat.le_succ _)
    · simp

/-- `re.split(r'(?<=[.!?])\s+', reply)`. -/
def sentSplitAux : Nat → List Char → List Char → List String
  | _, [], acc => [⟨acc.reverse⟩]
  | 0, l, acc => [⟨acc.reverse ++ l⟩]
  | fuel + 1, c :: t, acc =>
    if isPySpace c && (match acc with | p :: _ => isSentEnd p | [] => false) then
      ⟨acc.reverse⟩ :: sentSplitAux fuel (dropLeadingSpaces t) []
    else sentSplitAux fuel t (c :: acc)

def sentSplit (s : String) : List String := sentSplitAux s.data.length s.data []

/-- The echo filter: strip or discard replies that restate the user. -/
def echoFilter (reply : Option String) (user_message : String) : Option String :=
  if ¬ optTruthy reply ∨ user_message = "" ∨ ¬ user_message.data.length > 10 then reply
  else
    let r := reply.getD ""
    let user_norm := pyStrip (normalizeTxt user_message)
    let reply_norm := pyStrip (normalizeTxt r)
    if user_norm.data.length > 10 ∧ startsWithStr reply_norm (takeStr user_norm 30) then
      match pySplitOnce r "\n\n" with
      | _ :: second :: _ => some (pyStrip second)
      | _ => none
    else if user_norm.data.length > 15 then
      let bigWords := (pySplitWs user_norm).filter (fun w => w.data.length > 2)
      let filtered := (sentSplit r).filter (fun s =>
        let s_norm := pyStrip (normalizeTxt s)
        let overlap := (bigWords.filter (fun w => containsSub s_norm w)).length
        ¬ (bigWords.length > 0 ∧
          (overlap : ℚ) / (bigWords.length : ℚ) > (3 / 5 : ℚ)))
      if filtered ≠ [] then some (joinWith " " filtered) else none
    else reply

/-- `all_user_text`: current message plus all prior user messages. -/
def allUserText (user_message : String) (messages : List Msg) : String :=
  messages.foldl (fun acc m =>
    if m.role = "user" then acc ++ " " ++ m.content else acc) user_message

/-- The B2B/B2C field-confusion fixes applied to the raw update. -/
def fixUpd (upd : Profile) (user_message : String) : Profile :=
  let segmento_val := pyUpper (pyStr (pgetD upd "segmento" (.vstr "")))
  let upd1 :=
    if segmento_val ∈ modeloOptions then
      pset (pset upd "modelo" (.vstr segmento_val)) "segmento" .vnone
    else upd
  if (pget upd1 "modelo").truthy ∧ ¬ (pget upd1 "segmento").truthy then
    if containsSub user_message "," then
      let parts := (pySplitOn user_message ",").map pyStrip
      if parts.length ≥ 2 then
        let upd2 :=
          if ¬ (pget upd1 "nome_negocio").truthy then
            pset upd1 "nome_negocio" (.vstr (parts.getD 0 ""))
          else upd1
        if ¬ (pget upd2 "segmento").truthy then
          let seg_candidate := modeloOptions.foldl
            (fun s term => pyStrip (pyReplace s term "")) (parts.getD 1 "")
          if seg_candidate ≠ "" then pset upd2 "segmento" (.vstr seg_candidate) else upd2
        else upd2
      else upd1
    else upd1
  else upd1

/-- `for k, v in extracted_profile.items(): if v and not cleaned.get(k): …` -/
def preserveFields (cleaned : Profile) : Profile → Profile
  | [] => cleaned
  | kv :: t =>
    preserveFields
      (if kv.2.truthy ∧ ¬ (pget cleaned kv.1).truthy then pset cleaned kv.1 kv.2
       else cleaned) t

/-- The force-preserve loop over a list of field names. -/
def preserveList (cleaned prev : Profile) : List String → Profile
  | [] => cleaned
  | f :: t =>
    preserveList
      (if (pget prev f).truthy ∧ ¬ (pget cleaned f).truthy then pset cleaned f (pget prev f)
       else cleaned) prev t

/-- The force-preserve loop over the required fields. -/
def preserveRequired (cleaned prev : Profile) : Profile :=
  preserveList cleaned prev REQUIRED_FIELDS

def solo_patterns : List String :=
  ["trabalho sozinho", "sou só eu", "sou eu mesmo", "somente eu", "só eu",
   "apenas eu", "trabalho só", "empreendedor solo"]

/-- `validate_extraction` followed by the two sticky-data restoration loops
(the "never lose previously validated data" block of `run_chat`). -/
def validateAndPreserve (upd : Profile) (text : String) (prev : Profile) : Profile :=
  preserveRequired (preserveFields (validate_extraction upd text prev) prev) prev

/-- The `investimento_marketing` ↔ `capital_disponivel` sync. -/
def syncCapital (c : Profile) : Profile :=
  if (pget c "investimento_marketing").truthy ∧
      ¬ (pget c "capital_disponivel").truthy then
    pset c "capital_disponivel" (pget c "investimento_marketing")
  else if (pget c "capital_disponivel").truthy ∧
      ¬ (pget c "investimento_marketing").truthy then
    pset c "investimento_marketing" (pget c "capital_disponivel")
  else c

/-- Infer `num_funcionarios = "sozinho"` from the solo phrases in context. -/
def soloInfer (c : Profile) (user_message : String) (messages : List Msg) : Profile :=
  if ¬ (pget c "num_funcionarios").truthy then
    let combined := pyLower user_message ++ " " ++
      pyLower (joinWith " " (messages.map (·.content)))
    if solo_patterns.any (fun p => containsSub combined p) then
      pset c "num_funcionarios" (.vstr "sozinho")
    else c
  else c

/-- `_infer_fields_from_context` over the history plus the current message,
merged into the profile (used both before the search and after validation). -/
def autoInfer (messages : List Msg) (user_message : String) (c : Profile) : Profile :=
  let ir := infer_fields_from_context (messages ++ [⟨"user", user_message⟩]) c
  applyInferred ir.1 ir.2

/-- Validation, sticky-data restoration, field syncing and auto-inference. -/
def mergePhase (upd : Profile) (user_message : String) (messages : List Msg)
    (profile3 : Profile) : Profile :=
  let text := allUserText user_message messages
  let upd' := if upd ≠ [] then fixUpd upd user_message else upd
  let cleaned0 := if upd' ≠ [] then validate_extraction upd' text profile3 else profile3
  autoInfer messages user_message
    (soloInfer (syncCapital (preserveRequired (preserveFields cleaned0 profile3) profile3))
      user_message messages)

def skip_phrases_set : List String :=
  ["vou pesquisar", "marquei uma tarefa", "vou buscar", "preciso pesquisar",
   "vou procurar", "vou verificar", "deixa eu pesquisar", "vou dar uma olhada"]

/-- Install `_research_pending` for a freshly researched field (unless the
field was already collected), forcing a findings reply when the model's reply
skipped the results. -/
def pendingSetPhase (suggestion : PyVal) (fieldR : Option String) (profile3 : Profile)
    (cleaned : Profile) (reply : Option String) : Profile × Option String :=
  match fieldR with
  | some F =>
    if ¬ suggestion.truthy then (cleaned, reply)
    else if ¬ (pget profile3 F).truthy then
      let tpl := ((rfind? RESEARCHABLE_FIELDS F).map (·.2.2)).getD "Aprofundar pesquisa"
      let taskDesc := formatTaskTemplate tpl
        (pyStr (pgetD cleaned "nome_negocio" (.vstr "o negócio")))
        (pyStr (pgetD cleaned "localizacao" (.vstr "")))
        (pyStr (pgetD cleaned "segmento" (.vstr "")))
      let c1 := pset cleaned "_research_pending" (.vpend F suggestion taskDesc)
      let c2 := pset c1 F .vnone
      let replyLower := pyLower (reply.getD "")
      let skipped := ¬ optTruthy reply ∨
        skip_phrases_set.any (fun sp => containsSub replyLower sp) ∨
        (pyStrip (reply.getD "")).data.length < 40
      if skipped ∧ suggestion.truthy ∧ suggestion ≠ .vstr "null" then
        (c2, some ("Pesquisei sobre **" ++ fieldLabel F ++
          "** pro seu negócio e encontrei:\n\n📋 **" ++ pyStr suggestion ++
          "**\n\nMarquei uma tarefa pra aprofundar isso depois. Faz sentido pra você?"))
      else (c2, reply)
    else (cleaned, reply)
  | none => (cleaned, reply)

/-- Preserve `_research_tasks` / `_fields_researched` from the prior profile. -/
def metaPreserve (cleaned profile3 : Profile) : Profile :=
  let c :=
    if (pget profile3 "_research_tasks").truthy ∧
        ¬ (pget cleaned "_research_tasks").truthy then
      pset cleaned "_research_tasks" (pget profile3 "_research_tasks")
    else cleaned
  if (pget profile3 "_fields_researched").truthy ∧
      ¬ (pget c "_fields_researched").truthy then
    pset c "_fields_researched" (pget profile3 "_fields_researched")
  else c

/-! ## `run_chat` — readiness, reply cascade and assembly -/

def finish_phrases : List String :=
  ["pode gerar", "analisar", "pronto", "terminar", "concluir", "gerar análise",
   "gerar a análise", "fazer análise", "vamos analisar"]

/-- The user explicitly asked to proceed to the analysis. -/
def userWantsFinish (user_message : String) : Bool :=
  finish_phrases.any (fun x => containsSub (pyLower user_message) x)

/-- All not-yet-collected collectible fields, in canonical order. -/
def allRemaining (p : Profile) : List String :=
  ALL_COLLECTIBLE_FIELDS_ORDER.filter (fun f =>
    ¬ (pget p f).truthy ∧ f ≠ "investimento_marketing" ∧ ¬ startsWithStr f "_")

def skip_phrases_pending : List String :=
  ["vou pesquisar", "marquei uma tarefa", "vou buscar", "preciso pesquisar",
   "vou procurar", "vou verificar"]

def pendingValOf : PyVal → PyVal
  | .vpend _ sv _ => sv
  | _ => .vstr ""

def pendingFldOf : PyVal → String
  | .vpend f _ _ => f
  | _ => ""

/-- The unified field-collection / reply-appendix cascade (the tail of
`run_chat`), returning the final reply and the (possibly task-augmented)
profile. -/
def cascade (user_message : String) (messages : List Msg) (cleaned0 : Profile)
    (reply0 : Option String) (saidDK : Bool) (fieldFailed : Option String) :
    String × Profile :=
  let fields_missing := REQUIRED_FIELDS.filter (fun f => ¬ (pget cleaned0 f).truthy)
  let required_done := fields_missing.length = 0
  let priority_count := (PRIORITY_OPTIONAL.filter (fun f => (pget cleaned0 f).truthy)).length
  let has_pending := pget cleaned0 "_research_pending" ≠ PyVal.vnone
  let base_ready := required_done ∧ priority_count ≥ 5
  if userWantsFinish user_message then
    (if optTruthy reply0 then reply0.getD "" ++ "\n\n✅ Vou gerar a análise agora!"
     else "✅ Vou gerar a análise agora!", cleaned0)
  else if has_pending then
    let pd := pget cleaned0 "_research_pending"
    let pval := pendingValOf pd
    let pfld := pendingFldOf pd
    let plbl := if pfld ≠ "" then fieldLabel pfld else ""
    let rl := pyLower (reply0.getD "")
    let generic := ¬ optTruthy reply0 ∨
      skip_phrases_pending.any (fun sp => containsSub rl sp) ∨
      (pyStrip (reply0.getD "")).data.length < 40
    if generic ∧ pval.truthy ∧ pval ≠ .vstr "null" then
      ("Pesquisei sobre **" ++ plbl ++ "** pro seu negócio e encontrei:\n\n📋 **" ++
        pyStr pval ++ "**\n\nMarquei uma tarefa pra aprofundar isso depois. Faz sentido pra você?",
       cleaned0)
    else if ¬ optTruthy reply0 then ("O que você acha da sugestão?", cleaned0)
    else (reply0.getD "", cleaned0)
  else if ¬ required_done then
    let prompt := fieldPrompt (fields_missing.getD 0 "")
    (if ¬ optTruthy reply0 then prompt
     else if ¬ endsWithStr (pyStrip (reply0.getD "")) "?" then
       reply0.getD "" ++ "\n\n" ++ prompt
     else reply0.getD "", cleaned0)
  else if saidDK ∧ ¬ has_pending then
    let failed := match fieldFailed with
      | some f => some f
      | none => get_field_from_context messages
    let flabel := (sfind? FIELD_LABELS_PT (failed.getD "")).getD "esse assunto"
    let reply1 :=
      if ¬ optTruthy reply0 then
        "Sem problemas! Não encontrei dados confiáveis agora sobre " ++ flabel ++
          ". Marquei uma tarefa pra pesquisar isso depois com mais calma."
      else reply0.getD ""
    let cleaned1 :=
      match failed with
      | some ff =>
        let tpl := ((rfind? RESEARCHABLE_FIELDS ff).map (·.2.2)).getD "Aprofundar pesquisa"
        let td := formatTaskTemplate tpl
          (pyStr (pgetD cleaned0 "nome_negocio" (.vstr "o negócio")))
          (pyStr (pgetD cleaned0 "localizacao" (.vstr "")))
          (pyStr (pgetD cleaned0 "segmento" (.vstr "")))
        let tasks := getTasks (pgetD cleaned0 "_research_tasks" (.vtasks []))
        let c := pset cleaned0 "_research_tasks" (.vtasks (tasks ++
          [⟨"Pesquisar: " ++ flabel,
            td ++ " (busca automática não retornou resultados relevantes)",
            "pesquisa", "busca_falhou"⟩]))
        let fr := getStrList (pgetD c "_fields_researched" (.vlist []))
        let fr' := if ff ∈ fr then fr else fr ++ [ff]
        pset c "_fields_researched" (.vlist fr')
      | none => cleaned0
    let reply2 :=
      match allRemaining cleaned1 with
      | f :: _ =>
        let prompt := (sfind? FIELD_PROMPTS_ALL f).getD ""
        if prompt ≠ "" ∧ ¬ endsWithStr (pyStrip reply1) "?" then
          reply1 ++ "\n\n" ++ prompt
        else reply1
      | [] => reply1
    (reply2, cleaned1)
  else
    match allRemaining cleaned0 with
    | f :: _ =>
      let prompt0 := fieldPrompt f
      let prompt := if isResearchable f then
        prompt0 ++ " Se não souber, posso pesquisar pra você!" else prompt0
      (if ¬ optTruthy reply0 then prompt
       else if ¬ endsWithStr (pyStrip (reply0.getD "")) "?" then
         if base_ready then reply0.getD "" ++ "\n\nPra enriquecer a análise: " ++ prompt
         else reply0.getD "" ++ "\n\n" ++ prompt
       else reply0.getD "", cleaned0)
    | [] =>
      (if ¬ optTruthy reply0 then
        "✅ Tenho tudo! Clique em 'Gerar Análise' pra ver seu relatório."
       else reply0.getD "" ++
        "\n\n✅ Tenho tudo! Clique em 'Gerar Análise' pra ver seu relatório.", cleaned0)

def errReply : String := "❌ Erro: chave da API Groq não configurada."

def greetingReply : String :=
  "Oi! 👋 Sou sua consultora de crescimento.\n\nVou te fazer algumas perguntas rápidas pra entender seu negócio e gerar um plano de ação personalizado. Se tiver algo que você não souber, sem problema — eu pesquiso pra você!\n\nVamos lá: qual o nome do seu negócio e o que vocês fazem?"

/-- `run_chat`: one conversational turn.  `hasApiKey` is whether a completion
credential is configured; `searchOut` and `llmRes` are the turn's external
collaborator outcomes (`llmRes = none`: the completion call raised). -/
def run_chat (hasApiKey : Bool) (messages : List Msg) (user_message : String)
    (extracted_profile : Profile) (searchOut : SearchRes) (llmRes : Option GenOut) :
    ChatOut :=
  if ¬ hasApiKey then
    ⟨some errReply, [], false, none, [], false, [], REQUIRED_FIELDS⟩
  else
    let ro := resolve_pending extracted_profile user_message
    let profile1 := ro.profile
    if messages = [] ∧ user_message = "" then
      ⟨some greetingReply, profile1, false, none, [], false, [], REQUIRED_FIELDS⟩
    else
      let profile2 := autoInfer messages user_message profile1
      let sp := searchPhase user_message messages profile2 ro.justResolved searchOut
      let profile3 := sp.profile
      let g := effectiveGen llmRes profile3
      let upd0 := g.upd.getD profile3
      let cap := captureSuggestion sp.field sp.performed upd0
      let reply2 := echoFilter (replyReset (replyOfGen g)) user_message
      let cleaned4 := mergePhase cap.2 user_message messages profile3
      let ps := pendingSetPhase cap.1 sp.field profile3 cleaned4 reply2
      let cleaned5 := metaPreserve ps.1 profile3
      let fields_collected := ALL_FIELDS.filter (fun f =>
        (pget cleaned5 f).truthy ∧ ¬ startsWithStr f "_")
      let fields_missing := REQUIRED_FIELDS.filter (fun f => ¬ (pget cleaned5 f).truthy)
      let priority_count := (PRIORITY_OPTIONAL.filter (fun f => (pget cleaned5 f).truthy)).length
      let ready := userWantsFinish user_message ||
        (fields_missing.length == 0 && decide (priority_count ≥ 5))
      let fin := cascade user_message messages cleaned5 ps.2 sp.saidDontKnow sp.fieldFailed
      ⟨some fin.1, fin.2, sp.performed,
        if sp.performed then sp.query else none,
        if sp.performed then sp.sources else [],
        ready, fields_collected, fields_missing⟩

/-! ## Dictionary lemmas -/

theorem pfind?_pset_self (p : Profile) (f : String) (v : PyVal) :
    pfind? (pset p f v) f = some v := by
  induction p with
  | nil => simp [pset, pfind?]
  | cons kv t ih =>
    simp only [pset]
    split
    · simp [pfind?]
    · next hne =>
      simp only [pfind?, if_neg hne]
      exact ih

theorem pfind?_pset_ne (p : Profile) (f g : String) (v : PyVal) (h : g ≠ f) :
    pfind? (pset p f v) g = pfind? p g := by
  induction p with
  | nil => simp [pset, pfind?, Ne.symm h]
  | cons kv t ih =>
    simp only [pset]
    split
    · next heq => simp [pfind?, heq, Ne.symm h, h]
    · simp only [pfind?]
      split
      · rfl
      · exact ih

theorem pget_pset_self (p : Profile) (f : String) (v : PyVal) :
    pget (pset p f v) f = v := by
  simp [pget, pfind?_pset_self]

theorem pget_pset_ne (p : Profile) (f g : String) (v : PyVal) (h : g ≠ f) :
    pget (pset p f v) g = pget p g := by
  simp [pget, pfind?_pset_ne p f g v h]

theorem ppop_cons (kv : String × PyVal) (t : Profile) (f : String) :
    ppop (kv :: t) f = if kv.1 = f then ppop t f else kv :: ppop t f := by
  by_cases hk : kv.1 = f <;> simp [ppop, List.filter_cons, hk]

theorem pfind?_ppop_ne (p : Profile) (f g : String) (h : g ≠ f) :
    pfind? (ppop p f) g = pfind? p g := by
  induction p with
  | nil => simp [ppop, pfind?]
  | cons kv t ih =>
    rw [ppop_cons]
    by_cases hk : kv.1 = f
    · rw [if_pos hk, ih]
      have : kv.1 ≠ g := by rw [hk]; exact Ne.symm h
      simp [pfind?, this]
    · rw [if_neg hk]
      simp only [pfind?]
      split
      · rfl
      · exact ih

theorem pget_ppop_ne (p : Profile) (f g : String) (h : g ≠ f) :
    pget (ppop p f) g = pget p g := by
  simp [pget, pfind?_ppop_ne p f g h]

theorem pget_ppop_self (p : Profile) (f : String) :
    pget (ppop p f) f = .vnone := by
  induction p with
  | nil => simp [ppop, pget, pfind?]
  | cons kv t ih =>
    rw [ppop_cons]
    by_cases hk : kv.1 = f
    · rw [if_pos hk]
      exact ih
    · rw [if_neg hk]
      simp only [pget, pfind?, if_neg hk] at ih ⊢
      exact ih

/-- Keys of a profile. -/
def pkeys (p : Profile) : List String := p.map Prod.fst

theorem pset_pkeys (p : Profile) (f : String) (v : PyVal) :
    pkeys (pset p f v) = if f ∈ pkeys p then pkeys p else pkeys p ++ [f] := by
  induction p with
  | nil => simp [pset, pkeys]
  | cons kv t ih =>
    simp only [pset]
    by_cases hk : kv.1 = f
    · simp [pkeys, hk]
    · simp only [if_neg hk, pkeys, List.map_cons] at ih ⊢
      rw [ih]
      have : f ∈ kv.1 :: List.map Prod.fst t ↔ f ∈ List.map Prod.fst t := by
        simp [Ne.symm hk]
      by_cases hm : f ∈ List.map Prod.fst t <;> simp [hm, this, Ne.symm hk]

theorem pset_nodup (p : Profile) (f : String) (v : PyVal)
    (h : (pkeys p).Nodup) : (pkeys (pset p f v)).Nodup := by
  rw [pset_pkeys]
  split
  · exact h
  · next hm => simp [List.nodup_append, h, hm]

theorem ppop_nodup (p : Profile) (f : String)
    (h : (pkeys p).Nodup) : (pkeys (ppop p f)).Nodup := by
  have : pkeys (ppop p f) |>.Sublist (pkeys p) := by
    simp only [pkeys, ppop]
    exact List.Sublist.map _ (List.filter_sublist p)
  exact this.nodup h

theorem applyInferred_nodup (inf p : Profile)
    (h : (pkeys p).Nodup) : (pkeys (applyInferred inf p)).Nodup := by
  induction inf generalizing p with
  | nil => exact h
  | cons kv t ih =>
    simp only [applyInferred]
    split
    · exact ih _ (pset_nodup _ _ _ h)
    · exact ih _ h

/-- `applyInferred` never overwrites an already-truthy field. -/
theorem applyInferred_truthy (inf p : Profile) (f : String)
    (h : (pget p f).truthy = true) :
    pget (applyInferred inf p) f = pget p f := by
  induction inf generalizing p with
  | nil => rfl
  | cons kv t ih =>
    simp only [applyInferred]
    split
    · next hset =>
      by_cases hk : kv.1 = f
      · rw [hk] at hset
        exact absurd h hset
      · rw [ih _ (by rwa [pget_pset_ne _ _ _ _ (Ne.symm hk)]),
          pget_pset_ne _ _ _ _ (Ne.symm hk)]
    · exact ih _ h

/-- `applyInferred` only writes keys of the inferred list. -/
theorem applyInferred_frame (inf p : Profile) (f : String)
    (h : ∀ kv ∈ inf, kv.1 ≠ f) :
    pget (applyInferred inf p) f = pget p f := by
  induction inf generalizing p with
  | nil => rfl
  | cons kv t ih =>
    simp only [applyInferred]
    have hk : kv.1 ≠ f := h kv (by simp)
    have ht : ∀ kv ∈ t, kv.1 ≠ f := fun x hx => h x (by simp [hx])
    split
    · rw [ih _ ht, pget_pset_ne _ _ _ _ (Ne.symm hk)]
    · exact ih _ ht

/-! ## Validation-fold lemmas -/

theorem validateFold_frame (ul : String) (prev : Profile) (upd acc : Profile) (F : String)
    (h : ∀ kv ∈ upd, kv.1 ≠ F) :
    pget (validateFold ul prev acc upd) F = pget acc F := by
  induction upd generalizing acc with
  | nil => rfl
  | cons kv t ih =>
    have hk : kv.1 ≠ F := h kv (by simp)
    have ht : ∀ x ∈ t, x.1 ≠ F := fun x hx => h x (by simp [hx])
    simp only [validateFold]
    split
    · rw [ih _ ht, pget_pset_ne _ _ _ _ (Ne.symm hk)]
    · exact ih _ ht

theorem pfind?_none_of_not_mem (p : Profile) (F : String)
    (h : F ∉ pkeys p) : pfind? p F = none := by
  induction p with
  | nil => rfl
  | cons kv t ih =>
    simp only [pkeys, List.map_cons, List.mem_cons, not_or] at h
    simp only [pfind?, if_neg (Ne.symm h.1)]
    exact ih (by simpa [pkeys] using h.2)

theorem validateFold_pget (ul : String) (prev : Profile) (upd acc : Profile) (F : String)
    (hnd : (pkeys upd).Nodup) :
    pget (validateFold ul prev acc upd) F =
      (match pfind? upd F with
       | some v =>
         match validateOne F v ul prev with
         | some w => w
         | none => pget acc F
       | none => pget acc F) := by
  induction upd generalizing acc with
  | nil => rfl
  | cons kv t ih =>
    simp only [pkeys, List.map_cons, List.nodup_cons] at hnd
    by_cases hk : kv.1 = F
    · subst hk
      have hnt : ∀ x ∈ t, x.1 ≠ kv.1 := by
        intro x hx
        intro heq
        exact hnd.1 (heq ▸ List.mem_map_of_mem Prod.fst hx)
      simp only [validateFold, pfind?, if_pos rfl]
      split
      · next w hw =>
        rw [validateFold_frame _ _ _ _ _ hnt, pget_pset_self]
        simp [hw]
      · next hw =>
        rw [validateFold_frame _ _ _ _ _ hnt]
        simp [hw]
    · simp only [validateFold, pfind?, if_neg hk]
      split
      · rw [ih _ hnd.2, pget_pset_ne _ _ _ _ (Ne.symm hk)]
      · rw [ih _ hnd.2]

/-- Entries that never validate for key `F` leave `F` unset. -/
theorem validateFold_no_write (ul : String) (prev : Profile) (upd acc : Profile) (F : String)
    (h : ∀ kv ∈ upd, kv.1 = F → validateOne kv.1 kv.2 ul prev = none) :
    pget (validateFold ul prev acc upd) F = pget acc F := by
  induction upd generalizing acc with
  | nil => rfl
  | cons kv t ih =>
    have ht : ∀ x ∈ t, x.1 = F → validateOne x.1 x.2 ul prev = none :=
      fun x hx => h x (by simp [hx])
    simp only [validateFold]
    split
    · next w hw =>
      by_cases hk : kv.1 = F
      · rw [h kv (by simp) hk] at hw
        exact absurd hw (by simp)
      · rw [ih _ ht, pget_pset_ne _ _ _ _ (Ne.symm hk)]
    · exact ih _ ht

/-! ## Preservation-loop lemmas -/

theorem preserveFields_frame (c : Profile) (prev : Profile) (F : String)
    (h : ∀ kv ∈ prev, kv.1 ≠ F) :
    pget (preserveFields c prev) F = pget c F := by
  induction prev generalizing c with
  | nil => rfl
  | cons kv t ih =>
    have hk : kv.1 ≠ F := h kv (by simp)
    have ht : ∀ x ∈ t, x.1 ≠ F := fun x hx => h x (by simp [hx])
    simp only [preserveFields]
    split
    · rw [ih _ ht, pget_pset_ne _ _ _ _ (Ne.symm hk)]
    · exact ih _ ht

theorem preserveFields_pget (c prev : Profile) (F : String)
    (hnd : (pkeys prev).Nodup) :
    pget (preserveFields c prev) F =
      (if ¬ (pget c F).truthy ∧ (pget prev F).truthy then pget prev F else pget c F) := by
  induction prev generalizing c with
  | nil => simp [preserveFields, pget, pfind?, PyVal.truthy]
  | cons kv t ih =>
    simp only [pkeys, List.map_cons, List.nodup_cons] at hnd
    by_cases hk : kv.1 = F
    · subst hk
      have hnt : ∀ x ∈ t, x.1 ≠ kv.1 := by
        intro x hx heq
        exact hnd.1 (heq ▸ List.mem_map_of_mem Prod.fst hx)
      have hgt : pget (kv :: t) kv.1 = kv.2 := by simp [pget, pfind?]
      simp only [preserveFields, hgt]
      split
      · next hcond =>
        rw [preserveFields_frame _ _ _ hnt, pget_pset_self]
        simp [hcond.1, hcond.2]
      · next hcond =>
        rw [preserveFields_frame _ _ _ hnt]
        by_cases hc : (pget c kv.1).truthy
        · simp [hc]
        · have : ¬ kv.2.truthy := by
            intro ht'
            exact hcond ⟨ht', hc⟩
          simp [hc, this]
    · have hgt : pget (kv :: t) F = pget t F := by simp [pget, pfind?, if_neg hk]
      simp only [preserveFields, hgt]
      split
      · rw [ih _ hnd.2, pget_pset_ne _ _ _ _ (Ne.symm hk)]
      · rw [ih _ hnd.2]

theorem preserveList_frame (c prev : Profile) (l : List String) (F : String)
    (h : F ∉ l) :
    pget (preserveList c prev l) F = pget c F := by
  induction l generalizing c with
  | nil => rfl
  | cons f t ih =>
    simp only [List.mem_cons, not_or] at h
    simp only [preserveList]
    split
    · rw [ih _ h.2, pget_pset_ne _ _ _ _ h.1]
    · exact ih _ h.2

theorem preserveList_pget (c prev : Profile) (l : List String) (F : String)
    (hnd : l.Nodup) :
    pget (preserveList c prev l) F =
      (if F ∈ l ∧ ¬ (pget c F).truthy ∧ (pget prev F).truthy then pget prev F
       else pget c F) := by
  induction l generalizing c with
  | nil => simp [preserveList]
  | cons f t ih =>
    simp only [List.nodup_cons] at hnd
    by_cases hk : f = F
    · subst hk
      simp only [preserveList]
      split
      · next hcond =>
        rw [preserveList_frame _ _ _ _ hnd.1, pget_pset_self]
        simp [hcond.1, hcond.2]
      · next hcond =>
        rw [preserveList_frame _ _ _ _ hnd.1]
        by_cases hc : (pget c f).truthy
        · simp [hc]
        · have : ¬ (pget prev f).truthy := fun ht' => hcond ⟨ht', hc⟩
          simp [hc, this]
    · simp only [preserveList]
      have hmem : F ∈ f :: t ↔ F ∈ t := by simp [Ne.symm hk]
      split
      · rw [ih _ hnd.2, pget_pset_ne _ _ _ _ (Ne.symm hk)]
        simp [hmem]
      · rw [ih _ hnd.2]
        simp [hmem]

/-! ## Stage nodup preservation -/

theorem resolve_pending_nodup (p : Profile) (m : String)
    (h : (pkeys p).Nodup) : (pkeys (resolve_pending p m).profile).Nodup := by
  simp only [resolve_pending]
  cases pget p "_research_pending" with
  | vpend f v t =>
    dsimp only
    by_cases hm : m = ""
    · rw [if_pos hm]; exact h
    · rw [if_neg hm]
      by_cases hc : detect_research_response m = "confirm" ∨
          stillDontKnowRx.research (pyStrip (pyLower m)) = true
      · rw [if_pos hc]
        exact ppop_nodup _ _ (pset_nodup _ _ _ (pset_nodup _ _ _ (pset_nodup _ _ _ h)))
      · rw [if_neg hc]
        by_cases hr : detect_research_response m = "reject"
        · rw [if_pos hr]
          exact ppop_nodup _ _ (pset_nodup _ _ _ (pset_nodup _ _ _ h))
        · rw [if_neg hr]
          exact ppop_nodup _ _ (pset_nodup _ _ _ (pset_nodup _ _ _ h))
  | vnone => exact h
  | vstr s => exact h
  | vlist l => exact h
  | vtasks ts => exact h

theorem autoInfer_nodup (messages : List Msg) (m : String) (p : Profile)
    (h : (pkeys p).Nodup) : (pkeys (autoInfer messages m p)).Nodup := by
  unfold autoInfer infer_fields_from_context
  apply applyInferred_nodup
  split
  · exact ppop_nodup _ _ h
  · exact h

theorem searchPhase_nodup (m : String) (messages : List Msg) (p : Profile)
    (jr : Bool) (so : SearchRes)
    (h : (pkeys p).Nodup) : (pkeys (searchPhase m messages p jr so).profile).Nodup := by
  simp only [searchPhase]
  generalize (if jr = true then noSearch else should_search_proactively m messages p) = d
  split
  · exact h
  · split
    · exact h
    · cases d.field with
      | none => exact h
      | some F =>
        dsimp only
        split
        · exact pset_nodup _ _ _ (pset_nodup _ _ _ h)
        · exact h

/-! ## Stage behaviour lemmas -/

/-- With an empty user message the pending-resolution step never mutates the
profile (the `vpend` arm returns early, every other arm is a no-op). -/
theorem resolve_pending_empty (p : Profile) :
    (resolve_pending p "").profile = p := by
  simp only [resolve_pending]
  cases pget p "_research_pending" <;> rfl

/-! ## Claim theorems -/

/-- C10: with a completion credential configured, an empty message history and
an empty user message, `run_chat` returns the fixed greeting reply and the
input profile unchanged, with `search_performed = false`, `search_query = none`,
no sources, `ready_for_analysis = false`, `fields_collected = []` and
`fields_missing` equal to the six required fields — for every possible outcome
of the search and completion collaborators (so neither is consulted). -/
theorem run_chat_greeting_start (p : Profile) (so : SearchRes) (g : Option GenOut) :
    run_chat true [] "" p so g =
      ⟨some greetingReply, p, false, none, [], false, [], REQUIRED_FIELDS⟩ := by
  simp only [run_chat]
  rw [resolve_pending_empty]
  simp

/-- C3: rejection precedence.  (1) Whenever any rejection pattern matches the
normalised utterance, `detect_research_response` returns "reject" — even if a
confirmation pattern also matches.  (2) The utterance
"não, isso não faz sentido" matches both a rejection and a confirmation
pattern, and classifies as "reject".  (3) Resolving a pending research record
with that utterance takes the rejected branch: the pending field keeps its
prior profile entry (the suggestion is not installed) and the appended research
task records origin "pesquisa_rejeitada". -/
theorem detect_research_reject_precedence :
    (∀ m : String,
      reject_patterns.any (fun q => q.research (pyStrip (pyLower m))) = true →
      detect_research_response m = "reject") ∧
    (reject_patterns.any
        (fun q => q.research (pyStrip (pyLower "não, isso não faz sentido"))) = true ∧
     confirm_patterns.any
        (fun q => q.research (pyStrip (pyLower "não, isso não faz sentido"))) = true ∧
     detect_research_response "não, isso não faz sentido" = "reject") ∧
    (∀ (p : Profile) (f : String) (v : PyVal) (t : String),
      pget p "_research_pending" = .vpend f v t →
      f ≠ "_research_tasks" → f ≠ "_fields_researched" → f ≠ "_research_pending" →
      pget (resolve_pending p "não, isso não faz sentido").profile f = pget p f ∧
      ∃ task : RTask,
        (getTasks (pget (resolve_pending p "não, isso não faz sentido").profile
          "_research_tasks")).getLast? = some task ∧
        task.origem = "pesquisa_rejeitada") := by
  refine ⟨?_, ⟨by decide, by decide, by decide⟩, ?_⟩
  · intro m hm
    simp only [detect_research_response, hm, if_true]
  · intro p f v t hp hf1 hf2 hf3
    simp only [resolve_pending, hp]
    rw [if_neg (by decide : ¬ ("não, isso não faz sentido" = ""))]
    rw [if_neg (by decide : ¬ (detect_research_response "não, isso não faz sentido" = "confirm" ∨
      stillDontKnowRx.research (pyStrip (pyLower "não, isso não faz sentido")) = true))]
    rw [if_pos (by decide : detect_research_response "não, isso não faz sentido" = "reject")]
    constructor
    · rw [pget_ppop_ne _ _ _ hf3, pget_pset_ne _ _ _ _ hf2, pget_pset_ne _ _ _ _ hf1]
    · refine ⟨⟨"Pesquisar melhor: " ++ fieldLabel f,
        formatTaskTemplate (((rfind? RESEARCHABLE_FIELDS f).map (·.2.2)).getD
            "Aprofundar pesquisa")
          (pyStr (pgetD p "nome_negocio" (.vstr "o negócio")))
          (pyStr (pgetD p "localizacao" (.vstr "")))
          (pyStr (pgetD p "segmento" (.vstr ""))) ++
          " (pesquisa inicial rejeitada pelo usuário)",
        "pesquisa", "pesquisa_rejeitada"⟩, ?_, rfl⟩
      rw [pget_ppop_ne _ _ _ (by decide), pget_pset_ne _ _ _ _ (by decide), pget_pset_self]
      simp [getTasks]

theorem detect_research_reject_precedence_witness :
    reject_patterns.any (fun q => q.research (pyStrip (pyLower "não"))) = true ∧
    detect_research_response "não" = "reject" ∧
    pget (resolve_pending
        [("_research_pending", PyVal.vpend "concorrentes" (PyVal.vstr "Loja A, Loja B") "t")]
        "não, isso não faz sentido").profile "concorrentes" =
      pget [("_research_pending", PyVal.vpend "concorrentes" (PyVal.vstr "Loja A, Loja B") "t")]
        "concorrentes" :=
  ⟨by decide,
   detect_research_reject_precedence.1 "não" (by decide),
   (detect_research_reject_precedence.2.2
     [("_research_pending", PyVal.vpend "concorrentes" (PyVal.vstr "Loja A, Loja B") "t")]
     "concorrentes" (PyVal.vstr "Loja A, Loja B") "t" rfl
     (by decide) (by decide) (by decide)).1⟩

/-- C5: enumerated-field handling.  (1) A `segmento` candidate whose
strip-uppercased form is one of \x7bB2B, B2C, D2C, MISTO\x7d is always rejected
by the validator.  (2) The same token proposed for `modelo` is accepted there
(normalised to upper case).  (3) A `modelo` candidate outside the fixed set is
rejected outright, with no grounding check consulted.  (4) Hence a raw update
all of whose `segmento` proposals case-normalise into the set leaves `segmento`
unset in the validated profile.  (5) The pre-validation fix-up in `run_chat`
moves such a `segmento` value into `modelo`. -/
theorem enumerated_field_handling :
    (∀ (v : PyVal) (ul : String) (prev : Profile),
      pyStrip (pyUpper (pyStr v)) ∈ modeloOptions →
      validateOne "segmento" v ul prev = none) ∧
    (∀ (v : PyVal) (ul : String) (prev : Profile),
      v.truthy → pyStrip (pyUpper (pyStr v)) ∈ modeloOptions →
      validateOne "modelo" v ul prev = some (.vstr (pyStrip (pyUpper (pyStr v))))) ∧
    (∀ (v : PyVal) (ul : String) (prev : Profile),
      pyStrip (pyUpper (pyStr v)) ∉ modeloOptions →
      validateOne "modelo" v ul prev = none) ∧
    (∀ (upd : Profile) (text : String) (prev : Profile),
      (∀ kv ∈ upd, kv.1 = "segmento" → pyStrip (pyUpper (pyStr kv.2)) ∈ modeloOptions) →
      pget (validate_extraction upd text prev) "segmento" = .vnone) ∧
    (∀ (upd : Profile) (m : String),
      pyUpper (pyStr (pgetD upd "segmento" (.vstr ""))) ∈ modeloOptions →
      pget (fixUpd upd m) "modelo" =
        .vstr (pyUpper (pyStr (pgetD upd "segmento" (.vstr ""))))) := by
  have hrej : ∀ (v : PyVal) (ul : String) (prev : Profile),
      pyStrip (pyUpper (pyStr v)) ∈ modeloOptions →
      validateOne "segmento" v ul prev = none := by
    intro v ul prev hv
    by_cases ht : v.truthy
    · simp [validateOne, ht, hv]
    · simp [validateOne, ht]
  refine ⟨hrej, ?_, ?_, ?_, ?_⟩
  · intro v ul prev ht hv
    simp [validateOne, ht, hv]
  · intro v ul prev hv
    by_cases ht : v.truthy
    · simp [validateOne, ht, hv]
    · simp [validateOne, ht]
  · intro upd text prev h
    show pget (validateFold (pyLower text) prev [] upd) "segmento" = .vnone
    rw [validateFold_no_write]
    · rfl
    · intro kv hkv hk
      have hm := h kv hkv hk
      rw [hk]
      exact hrej kv.2 _ prev hm
  · intro upd m hseg
    have e1 : ∀ (c : Profile) (v : PyVal),
        pget (pset c "segmento" v) "modelo" = pget c "modelo" :=
      fun c v => pget_pset_ne c _ _ v (by decide)
    have e2 : ∀ (c : Profile) (v : PyVal),
        pget (pset c "nome_negocio" v) "modelo" = pget c "modelo" :=
      fun c v => pget_pset_ne c _ _ v (by decide)
    simp only [fixUpd]
    rw [if_pos hseg]
    repeat' split
    all_goals simp only [e1, e2, pget_pset_self]

theorem enumerated_field_handling_witness :
    validateOne "segmento" (.vstr "B2B") "" [] = none ∧
    validateOne "modelo" (.vstr "b2b") "" [] = some (.vstr "B2B") ∧
    validateOne "modelo" (.vstr "porta a porta") "" [] = none ∧
    pget (validate_extraction [("segmento", .vstr "B2B")] "vendo b2b" []) "segmento" = .vnone ∧
    pget (fixUpd [("segmento", .vstr "B2B")] "oi") "modelo" = .vstr "B2B" :=
  ⟨enumerated_field_handling.1 (.vstr "B2B") "" [] (by decide),
   enumerated_field_handling.2.1 (.vstr "b2b") "" [] (by decide) (by decide),
   enumerated_field_handling.2.2.1 (.vstr "porta a porta") "" [] (by decide),
   enumerated_field_handling.2.2.2.1 [("segmento", .vstr "B2B")] "vendo b2b" [] (by decide),
   enumerated_field_handling.2.2.2.2 [("segmento", .vstr "B2B")] "oi" (by decide)⟩

/-- C2 counterexample: against the user text "5 mil" the candidate
"R$ 50.000" for `capital_disponivel` is NOT rejected: although no 1–3-word
window parses to a number within the 10% tolerance of 50000, the generic
"user message has at most 5 words" leniency fallback accepts the value. -/
theorem money_grounding_counterexample :
    value_has_basis "capital_disponivel" (.vstr "R$ 50.000") "5 mil" = true ∧
    extract_number (pyStr (PyVal.vstr "R$ 50.000")) = some 50000 ∧
    moneyWindowHit 50000 (normalizeTxt "5 mil") = false :=
  ⟨by decide, by decide, by decide⟩

/-- C2 (amended): for a monetary field, a window hit within the 10% tolerance
is SUFFICIENT for acceptance: whenever some 1–3-word sliding window over the
user's words parses to a number matching the candidate's parsed magnitude
exactly or with min/max ≥ 0.9, the grounding validator accepts the candidate.
Concretely "R$ 5.000" against "5 mil" parses to 5000, hits the window "5 mil",
and is accepted.  (The rejection half of the original claim is false: an
unmatched magnitude can still be accepted through the ≤ 5-word leniency
fallback — see the counterexample.) -/
theorem money_grounding_tolerance :
    (∀ (field : String) (value : PyVal) (ul : String) (n : ℚ),
      field ∈ monetary_fields →
      extract_number (pyStr value) = some n →
      moneyWindowHit n (normalizeTxt ul) = true →
      value_has_basis field value ul = true) ∧
    extract_number (pyStr (PyVal.vstr "R$ 5.000")) = some 5000 ∧
    moneyWindowHit 5000 (normalizeTxt "5 mil") = true ∧
    value_has_basis "capital_disponivel" (.vstr "R$ 5.000") "5 mil" = true := by
  refine ⟨?_, by decide, by decide, by decide⟩
  intro field value ul n hf hn hw
  simp only [value_has_basis, hn]
  rw [if_pos ⟨hf, hw⟩]

theorem money_grounding_tolerance_witness :
    value_has_basis "faturamento_mensal" (.vstr "R$ 5.000")
      "faturo uns 5 mil por mes em vendas online e mais um pouco" = true :=
  money_grounding_tolerance.1 "faturamento_mensal" (.vstr "R$ 5.000")
    "faturo uns 5 mil por mes em vendas online e mais um pouco" 5000
    (by decide) (by decide) (by decide)

/-- The value at `F` after validation, for an update with distinct keys. -/
theorem validate_extraction_pget (upd : Profile) (text : String) (prev : Profile)
    (F : String) (hndu : (pkeys upd).Nodup) :
    pget (validate_extraction upd text prev) F =
      (match pfind? upd F with
       | some v =>
         match validateOne F v (pyLower text) prev with
         | some w => w
         | none => PyVal.vnone
       | none => PyVal.vnone) := by
  rw [validate_extraction, validateFold_pget _ _ _ _ _ hndu]
  cases pfind? upd F with
  | none => rfl
  | some v => cases validateOne F v (pyLower text) prev <;> rfl

/-- The value at `F` after validation plus both restoration loops. -/
theorem validateAndPreserve_pget (upd : Profile) (text : String) (prev : Profile)
    (F : String) (c : PyVal) (hndp : (pkeys prev).Nodup)
    (hc : pget (validate_extraction upd text prev) F = c) :
    pget (validateAndPreserve upd text prev) F =
      (if ¬ c.truthy ∧ (pget prev F).truthy then pget prev F else c) := by
  simp only [validateAndPreserve, preserveRequired]
  rw [preserveList_pget _ _ _ _ (by decide), preserveFields_pget _ _ _ hndp, hc]
  by_cases h1 : (¬ c.truthy = true) ∧ ((pget prev F).truthy = true)
  · rw [if_pos h1, if_neg (by simp [h1.2])]
  · rw [if_neg h1, if_neg (fun hh => h1 ⟨hh.2.1, hh.2.2⟩)]

/-- C1: sticky data.  For a previous profile whose field `F` holds a truthy
value, one pass of validation plus the two restoration loops (the merge step
of a turn) leaves `F` unchanged whenever the update proposes nothing for `F`,
or its proposal is not accepted as a new value by the validator (conjunct 1);
conversely the stored value only ever changes to a value the validator
accepted for the update's proposal (conjunct 2), and for a field with no
special-case branch the validator only accepts a replacement that passes the
textual-grounding check (conjunct 3). -/
theorem sticky_data (upd : Profile) (text : String) (prev : Profile) (F : String)
    (hndu : (pkeys upd).Nodup) (hndp : (pkeys prev).Nodup)
    (hV : (pget prev F).truthy = true) :
    ((match pfind? upd F with
      | none => True
      | some v => validateOne F v (pyLower text) prev = none ∨
          validateOne F v (pyLower text) prev = some (pget prev F)) →
      pget (validateAndPreserve upd text prev) F = pget prev F) ∧
    (pget (validateAndPreserve upd text prev) F ≠ pget prev F →
      ∃ v w, pfind? upd F = some v ∧ validateOne F v (pyLower text) prev = some w ∧
        w.truthy = true ∧ pget (validateAndPreserve upd text prev) F = w) ∧
    (∀ v w, F ≠ "modelo" → F ≠ "segmento" → F ≠ "site_url" → F ≠ "capital_disponivel" →
      validateOne F v (pyLower text) prev = some w → w ≠ pget prev F →
      w = v ∧ value_has_basis F v (pyLower text) = true) := by
  refine ⟨?_, ?_, ?_⟩
  · intro h
    cases hfu : pfind? upd F with
    | none =>
      have hc : pget (validate_extraction upd text prev) F = PyVal.vnone := by
        rw [validate_extraction_pget upd text prev F hndu, hfu]
      rw [validateAndPreserve_pget upd text prev F _ hndp hc, if_pos ⟨by decide, hV⟩]
    | some v =>
      rw [hfu] at h
      rcases h with h | h
      · have hc : pget (validate_extraction upd text prev) F = PyVal.vnone := by
          rw [validate_extraction_pget upd text prev F hndu, hfu]
          dsimp only
          rw [h]
        rw [validateAndPreserve_pget upd text prev F _ hndp hc, if_pos ⟨by decide, hV⟩]
      · have hc : pget (validate_extraction upd text prev) F = pget prev F := by
          rw [validate_extraction_pget upd text prev F hndu, hfu]
          dsimp only
          rw [h]
        rw [validateAndPreserve_pget upd text prev F _ hndp hc,
          if_neg (fun hh => hh.1 hV)]
  · intro hne
    cases hfu : pfind? upd F with
    | none =>
      exfalso
      apply hne
      have hc : pget (validate_extraction upd text prev) F = PyVal.vnone := by
        rw [validate_extraction_pget upd text prev F hndu, hfu]
      rw [validateAndPreserve_pget upd text prev F _ hndp hc, if_pos ⟨by decide, hV⟩]
    | some v =>
      cases hvo : validateOne F v (pyLower text) prev with
      | none =>
        exfalso
        apply hne
        have hc : pget (validate_extraction upd text prev) F = PyVal.vnone := by
          rw [validate_extraction_pget upd text prev F hndu, hfu]
          dsimp only
          rw [hvo]
        rw [validateAndPreserve_pget upd text prev F _ hndp hc, if_pos ⟨by decide, hV⟩]
      | some w =>
        have hc : pget (validate_extraction upd text prev) F = w := by
          rw [validate_extraction_pget upd text prev F hndu, hfu]
          dsimp only
          rw [hvo]
        have hr := validateAndPreserve_pget upd text prev F w hndp hc
        by_cases hwt : w.truthy = true
        · refine ⟨v, w, hfu ▸ rfl, hvo, hwt, ?_⟩
          rw [hr, if_neg (fun hh => hh.1 hwt)]
        · exfalso
          apply hne
          rw [hr, if_pos ⟨by simpa using hwt, hV⟩]
  · intro v w h1 h2 h3 h4 hvo hw
    by_cases ht : v.truthy = true
    · simp only [validateOne] at hvo
      rw [if_neg (by simpa using ht), if_neg h1, if_neg (fun hh => h2 hh.1),
        if_neg (fun hh => h3 hh.1), if_neg (fun hh => h4 hh.1), if_pos hV] at hvo
      by_cases hg : v ≠ pget prev F ∧ value_has_basis F v (pyLower text) = true
      · rw [if_pos hg] at hvo
        exact ⟨(Option.some.inj hvo).symm, hg.2⟩
      · rw [if_neg hg] at hvo
        exact absurd (Option.some.inj hvo).symm hw
    · simp only [validateOne] at hvo
      rw [if_pos (by simpa using ht)] at hvo
      exact Option.noConfusion hvo

theorem sticky_data_witness :
    pget (validateAndPreserve [("nome_negocio", PyVal.vstr "Padaria Central")]
      "oi tudo bem com voces hoje por aqui" [("nome_negocio", PyVal.vstr "Loja Bela")])
      "nome_negocio" = PyVal.vstr "Loja Bela" :=
  ((sticky_data [("nome_negocio", PyVal.vstr "Padaria Central")]
      "oi tudo bem com voces hoje por aqui" [("nome_negocio", PyVal.vstr "Loja Bela")]
      "nome_negocio" (by decide) (by decide) (by decide)).1
    (Or.inr (by decide))).trans (by decide)

/-- C9 counterexample: a turn in which the model's reply echoes the first 30
normalised characters of the user's 34-character message in BOTH paragraphs.
The echo filter fires and drops the first paragraph, but the surviving second
paragraph repeats the restatement, so the reply returned by the turn still
begins with it: the cleaned reply is not free of the echoing prefix. -/
theorem echo_suppression_counterexample :
    ("vendo roupas femininas em curitiba" : String).data.length > 10 ∧
    startsWithStr
      (pyStrip (normalizeTxt "Vendo roupas femininas em Curitiba, entendi!\n\nVendo roupas femininas em Curitiba é um ótimo nicho. Qual o nome?"))
      (takeStr (pyStrip (normalizeTxt "vendo roupas femininas em curitiba")) 30) = true ∧
    startsWithStr
      (pyStrip (normalizeTxt
        ((run_chat true [⟨"user", "oi"⟩, ⟨"assistant", "Olá!"⟩]
          "vendo roupas femininas em curitiba" [] ⟨"", []⟩
          (some ⟨some "Vendo roupas femininas em Curitiba, entendi!\n\nVendo roupas femininas em Curitiba é um ótimo nicho. Qual o nome?",
            some []⟩)).reply.getD "")))
      (takeStr (pyStrip (normalizeTxt "vendo roupas femininas em curitiba")) 30) = true := by
  refine ⟨by decide, by decide, by decide⟩

/-- C9 (amended): echo suppression acts on the reply's paragraphs.  For a user
message longer than 10 characters whose normalised form is longer than 10
characters, and a nonempty reply whose normalised opening exactly restates the
first 30 normalised characters of the message, the echo filter never keeps the
reply as is: it drops everything up to the first blank line and returns the
stripped remainder, or discards the reply entirely when it has no blank line.
(The original claim's stronger conclusion — that the cleaned reply never
begins with the restatement — is false, because the surviving remainder can
repeat it; see the counterexample.) -/
theorem echo_suppression (r m : String)
    (hr : r ≠ "")
    (hm : m.data.length > 10)
    (hu : (pyStrip (normalizeTxt m)).data.length > 10)
    (hs : startsWithStr (pyStrip (normalizeTxt r))
      (takeStr (pyStrip (normalizeTxt m)) 30) = true) :
    echoFilter (some r) m =
      (match pySplitOnce r "\n\n" with
       | _ :: second :: _ => some (pyStrip second)
       | _ => none) := by
  have hmne : m ≠ "" := by
    intro h
    rw [h] at hm
    simp at hm
  simp only [echoFilter]
  rw [if_neg ?hguard]
  case hguard =>
    intro hg
    rcases hg with hg | hg | hg
    · simp [optTruthy, hr] at hg
    · exact hmne hg
    · exact hg hm
  rw [if_pos ⟨hu, hs⟩]
  rfl

theorem echo_suppression_witness :
    echoFilter (some "vendo roupas femininas em curitiba\n\nLegal! Qual o nome do negócio?")
      "vendo roupas femininas em curitiba" =
      (match pySplitOnce "vendo roupas femininas em curitiba\n\nLegal! Qual o nome do negócio?"
          "\n\n" with
       | _ :: second :: _ => some (pyStrip second)
       | _ => none) :=
  echo_suppression "vendo roupas femininas em curitiba\n\nLegal! Qual o nome do negócio?"
    "vendo roupas femininas em curitiba" (by decide) (by decide) (by decide) (by decide)

/-! ## Readiness -/

/-- The readiness formula as the spec words it: the user explicitly asked to
finish, or all required fields are present and at least five of the seven
priority-optional fields are present.  (Spec-modelled, for comparison with the
flag the code computes.) -/
def readySpec (user_message : String) (p : Profile) : Bool :=
  userWantsFinish user_message ||
    (REQUIRED_FIELDS.all (fun f => (pget p f).truthy) &&
     decide ((PRIORITY_OPTIONAL.filter (fun f => (pget p f).truthy)).length ≥ 5))

theorem missing_count_eq (P : Profile) (l : List String) :
    ((l.filter (fun f => ¬ (pget P f).truthy)).length == 0) =
      l.all (fun f => (pget P f).truthy) := by
  induction l with
  | nil => rfl
  | cons f t ih =>
    simp only [List.filter_cons, List.all_cons]
    by_cases h : (pget P f).truthy = true
    · rw [if_neg (by simp [h]), ih]
      simp [h]
    · rw [if_pos (by simp [h])]
      simp [h]

theorem all_pget_congr (P Q : Profile) (l : List String)
    (h : ∀ f ∈ l, pget P f = pget Q f) :
    l.all (fun f => (pget P f).truthy) = l.all (fun f => (pget Q f).truthy) := by
  induction l with
  | nil => rfl
  | cons f t ih =>
    simp only [List.all_cons, h f (by simp),
      ih (fun x hx => h x (by simp [hx]))]

theorem filter_pget_congr (P Q : Profile) (l : List String)
    (h : ∀ f ∈ l, pget P f = pget Q f) :
    l.filter (fun f => (pget P f).truthy) = l.filter (fun f => (pget Q f).truthy) := by
  induction l with
  | nil => rfl
  | cons f t ih =>
    simp only [List.filter_cons, h f (by simp),
      ih (fun x hx => h x (by simp [hx]))]

/-- The reply cascade only ever writes the two research meta-keys. -/
theorem cascade_field_pget (m : String) (messages : List Msg) (c : Profile)
    (r0 : Option String) (dk : Bool) (ff : Option String) (F : String)
    (h1 : F ≠ "_research_tasks") (h2 : F ≠ "_fields_researched") :
    pget (cascade m messages c r0 dk ff).2 F = pget c F := by
  simp only [cascade]
  repeat' split
  all_goals dsimp only
  all_goals rw [pget_pset_ne _ _ _ _ h2, pget_pset_ne _ _ _ _ h1]

theorem cascade_readySpec_eq (m m' : String) (messages : List Msg) (C : Profile)
    (r0 : Option String) (dk : Bool) (ff : Option String) :
    readySpec m' (cascade m messages C r0 dk ff).2 = readySpec m' C := by
  have hc : ∀ f ∈ REQUIRED_FIELDS ++ PRIORITY_OPTIONAL,
      f ≠ "_research_tasks" ∧ f ≠ "_fields_researched" := by decide
  simp only [readySpec]
  rw [all_pget_congr _ C _ (fun f hf =>
      cascade_field_pget m messages C r0 dk ff f
        (hc f (List.mem_append_left _ hf)).1 (hc f (List.mem_append_left _ hf)).2),
    filter_pget_congr _ C _ (fun f hf =>
      cascade_field_pget m messages C r0 dk ff f
        (hc f (List.mem_append_right _ hf)).1 (hc f (List.mem_append_right _ hf)).2)]

theorem readySpec_eq_flag (m : String) (C : Profile) :
    (userWantsFinish m ||
      ((REQUIRED_FIELDS.filter (fun f => ¬ (pget C f).truthy)).length == 0 &&
       decide ((PRIORITY_OPTIONAL.filter (fun f => (pget C f).truthy)).length ≥ 5))) =
    readySpec m C := by
  simp only [readySpec, missing_count_eq]

/-- C4: readiness boundary.  There are 6 required and 7 priority-optional
fields, and on every non-greeting turn with a configured credential the
returned `ready_for_analysis` flag equals the spec's formula — the user
explicitly asked to finish, OR all required fields are present in the returned
(merged) profile AND at least 5 of the 7 priority fields are present.  At the
boundary: a turn whose merged profile has all 6 required fields and exactly 4
of the 7 priority fields is not ready; with 5 of 7 it is ready. -/
theorem readiness_boundary :
    (REQUIRED_FIELDS.length = 6 ∧ PRIORITY_OPTIONAL.length = 7) ∧
    (∀ (messages : List Msg) (m : String) (p : Profile) (so : SearchRes)
        (g : Option GenOut),
      ¬ (messages = [] ∧ m = "") →
      (run_chat true messages m p so g).ready_for_analysis =
        readySpec m (run_chat true messages m p so g).extracted_profile) ∧
    ((run_chat true [⟨"user", "oi"⟩] "tudo certo por aqui"
        [("nome_negocio", PyVal.vstr "Doce Lar"), ("segmento", PyVal.vstr "confeitaria"),
         ("modelo", PyVal.vstr "B2C"), ("localizacao", PyVal.vstr "Campinas"),
         ("dificuldades", PyVal.vstr "vendas baixas"), ("objetivos", PyVal.vstr "crescer"),
         ("capital_disponivel", PyVal.vstr "5000"), ("num_funcionarios", PyVal.vstr "2"),
         ("canais_venda", PyVal.vstr "instagram"), ("cliente_ideal", PyVal.vstr "jovens")]
        ⟨"", []⟩ (some ⟨some "Certo! E qual seu faturamento mensal?", some []⟩)).ready_for_analysis
        = false ∧
     (run_chat true [⟨"user", "oi"⟩] "tudo certo por aqui"
        [("nome_negocio", PyVal.vstr "Doce Lar"), ("segmento", PyVal.vstr "confeitaria"),
         ("modelo", PyVal.vstr "B2C"), ("localizacao", PyVal.vstr "Campinas"),
         ("dificuldades", PyVal.vstr "vendas baixas"), ("objetivos", PyVal.vstr "crescer"),
         ("capital_disponivel", PyVal.vstr "5000"), ("num_funcionarios", PyVal.vstr "2"),
         ("canais_venda", PyVal.vstr "instagram"), ("cliente_ideal", PyVal.vstr "jovens")]
        ⟨"", []⟩ (some ⟨some "Certo! E qual seu faturamento mensal?",
          some []⟩)).fields_missing = [] ∧
     (PRIORITY_OPTIONAL.filter (fun f =>
       (pget (run_chat true [⟨"user", "oi"⟩] "tudo certo por aqui"
        [("nome_negocio", PyVal.vstr "Doce Lar"), ("segmento", PyVal.vstr "confeitaria"),
         ("modelo", PyVal.vstr "B2C"), ("localizacao", PyVal.vstr "Campinas"),
         ("dificuldades", PyVal.vstr "vendas baixas"), ("objetivos", PyVal.vstr "crescer"),
         ("capital_disponivel", PyVal.vstr "5000"), ("num_funcionarios", PyVal.vstr "2"),
         ("canais_venda", PyVal.vstr "instagram"), ("cliente_ideal", PyVal.vstr "jovens")]
        ⟨"", []⟩ (some ⟨some "Certo! E qual seu faturamento mensal?",
          some []⟩)).extracted_profile f).truthy)).length = 4) ∧
    ((run_chat true [⟨"user", "oi"⟩] "tudo certo por aqui"
        [("nome_negocio", PyVal.vstr "Doce Lar"), ("segmento", PyVal.vstr "confeitaria"),
         ("modelo", PyVal.vstr "B2C"), ("localizacao", PyVal.vstr "Campinas"),
         ("dificuldades", PyVal.vstr "vendas baixas"), ("objetivos", PyVal.vstr "crescer"),
         ("capital_disponivel", PyVal.vstr "5000"), ("num_funcionarios", PyVal.vstr "2"),
         ("canais_venda", PyVal.vstr "instagram"), ("cliente_ideal", PyVal.vstr "jovens"),
         ("ticket_medio", PyVal.vstr "20")]
        ⟨"", []⟩ (some ⟨some "Certo! E qual seu faturamento mensal?", some []⟩)).ready_for_analysis
        = true ∧
     (PRIORITY_OPTIONAL.filter (fun f =>
       (pget (run_chat true [⟨"user", "oi"⟩] "tudo certo por aqui"
        [("nome_negocio", PyVal.vstr "Doce Lar"), ("segmento", PyVal.vstr "confeitaria"),
         ("modelo", PyVal.vstr "B2C"), ("localizacao", PyVal.vstr "Campinas"),
         ("dificuldades", PyVal.vstr "vendas baixas"), ("objetivos", PyVal.vstr "crescer"),
         ("capital_disponivel", PyVal.vstr "5000"), ("num_funcionarios", PyVal.vstr "2"),
         ("canais_venda", PyVal.vstr "instagram"), ("cliente_ideal", PyVal.vstr "jovens"),
         ("ticket_medio", PyVal.vstr "20")]
        ⟨"", []⟩ (some ⟨some "Certo! E qual seu faturamento mensal?",
          some []⟩)).extracted_profile f).truthy)).length = 5) := by
  refine ⟨by decide, ?_, ⟨by decide, by decide, by decide⟩, ⟨by decide, by decide⟩⟩
  intro messages m p so g hng
  simp only [run_chat]
  rw [if_neg (by simp), if_neg hng]
  rw [cascade_readySpec_eq, ← readySpec_eq_flag]

theorem readiness_boundary_witness :
    (run_chat true [⟨"user", "oi"⟩] "pode gerar a análise" [] ⟨"", []⟩
      none).ready_for_analysis =
      readySpec "pode gerar a análise"
        (run_chat true [⟨"user", "oi"⟩] "pode gerar a análise" [] ⟨"", []⟩
          none).extracted_profile :=
  (readiness_boundary.2.1 [⟨"user", "oi"⟩] "pode gerar a análise" [] ⟨"", []⟩
    none (by decide))

theorem replyOfGen_none (u : Option Profile) : replyOfGen ⟨none, u⟩ = none := rfl

theorem replyReset_none : replyReset none = none := rfl

theorem echoFilter_none (m : String) : echoFilter none m = none := rfl

theorem captureSuggestion_not_performed (fld : Option String) (u : Profile) :
    captureSuggestion fld false u = (PyVal.vnone, u) := by
  cases fld <;> rfl

theorem pendingSetPhase_no_suggestion (fld : Option String) (p c : Profile)
    (r : Option String) :
    pendingSetPhase PyVal.vnone fld p c r = (c, r) := by
  cases fld <;> rfl

/-- With no reply, no pending record and a required field still missing, the
cascade answers with the direct prompt for the first missing field. -/
theorem cascade_prompt (m : String) (messages : List Msg) (c : Profile)
    (dk : Bool) (ff : Option String)
    (hfin : userWantsFinish m = false)
    (hpend : pget c "_research_pending" = PyVal.vnone)
    (hmiss : REQUIRED_FIELDS.filter (fun f => ¬ (pget c f).truthy) ≠ []) :
    cascade m messages c none dk ff =
      (fieldPrompt ((REQUIRED_FIELDS.filter (fun f => ¬ (pget c f).truthy)).getD 0 ""),
       c) := by
  simp only [cascade]
  rw [if_neg (by simp [hfin])]
  rw [if_neg (by simp [hpend])]
  rw [if_pos (by
    intro h
    exact hmiss (List.length_eq_zero.mp h))]
  rw [if_pos (by simp [optTruthy])]

/-- C8: completion-failure fallback.  When the completion call raises
(`llmRes = none`), the code's `except` branch re-uses the previous profile
unchanged as the update with a null reply (conjunct 1).  Consequently, on a
non-greeting turn in which no search fires, no research record is pending and
a required field is still missing, the turn's reply is exactly the direct
prompt for the first missing field — no error is surfaced — and the returned
profile is the normally merged profile (conjunct 2). -/
theorem completion_failure_fallback :
    (∀ p3 : Profile, effectiveGen none p3 = ⟨none, some p3⟩ ∧
      replyOfGen (effectiveGen none p3) = none) ∧
    (∀ (messages : List Msg) (m : String) (prev : Profile) (so : SearchRes)
        (P3 CL : Profile),
      P3 = (searchPhase m messages
        (autoInfer messages m (resolve_pending prev m).profile)
        (resolve_pending prev m).justResolved so).profile →
      CL = metaPreserve (mergePhase P3 m messages P3) P3 →
      ¬ (messages = [] ∧ m = "") →
      userWantsFinish m = false →
      (searchPhase m messages
        (autoInfer messages m (resolve_pending prev m).profile)
        (resolve_pending prev m).justResolved so).performed = false →
      pget CL "_research_pending" = PyVal.vnone →
      REQUIRED_FIELDS.filter (fun f => ¬ (pget CL f).truthy) ≠ [] →
      (run_chat true messages m prev so none).reply =
        some (fieldPrompt
          ((REQUIRED_FIELDS.filter (fun f => ¬ (pget CL f).truthy)).getD 0 "")) ∧
      (run_chat true messages m prev so none).extracted_profile = CL) := by
  constructor
  · intro p3
    exact ⟨rfl, rfl⟩
  · intro messages m prev so P3 CL hP3 hCL hng hfin hperf hpend hmiss
    subst hP3 hCL
    simp only [run_chat]
    rw [if_neg (by simp), if_neg hng]
    rw [hperf, captureSuggestion_not_performed]
    simp only [effectiveGen, Option.getD]
    rw [replyOfGen_none, replyReset_none, echoFilter_none]
    rw [pendingSetPhase_no_suggestion]
    dsimp only
    rw [cascade_prompt _ _ _ _ _ hfin hpend hmiss]
    exact ⟨rfl, rfl⟩

theorem completion_failure_fallback_witness :
    (run_chat true [⟨"user", "oi tudo bem"⟩] "quero crescer meu negocio" [] ⟨"", []⟩
      none).reply =
      some (fieldPrompt ((REQUIRED_FIELDS.filter (fun f =>
        ¬ (pget (metaPreserve
          (mergePhase (searchPhase "quero crescer meu negocio" [⟨"user", "oi tudo bem"⟩]
              (autoInfer [⟨"user", "oi tudo bem"⟩] "quero crescer meu negocio"
                (resolve_pending [] "quero crescer meu negocio").profile)
              (resolve_pending [] "quero crescer meu negocio").justResolved ⟨"", []⟩).profile
            "quero crescer meu negocio" [⟨"user", "oi tudo bem"⟩]
            (searchPhase "quero crescer meu negocio" [⟨"user", "oi tudo bem"⟩]
              (autoInfer [⟨"user", "oi tudo bem"⟩] "quero crescer meu negocio"
                (resolve_pending [] "quero crescer meu negocio").profile)
              (resolve_pending [] "quero crescer meu negocio").justResolved ⟨"", []⟩).profile)
          (searchPhase "quero crescer meu negocio" [⟨"user", "oi tudo bem"⟩]
            (autoInfer [⟨"user", "oi tudo bem"⟩] "quero crescer meu negocio"
              (resolve_pending [] "quero crescer meu negocio").profile)
            (resolve_pending [] "quero crescer meu negocio").justResolved ⟨"", []⟩).profile)
          f).truthy)).getD 0 "")) :=
  ((completion_failure_fallback.2 [⟨"user", "oi tudo bem"⟩] "quero crescer meu negocio"
    [] ⟨"", []⟩ _ _ rfl rfl (by decide) (by decide) (by decide) (by decide)
    (by decide))).1

/-! ## Inference and search-decision key lemmas -/

theorem inferTipoProduto_key (t : String) (p : Profile) (kv : String × PyVal)
    (h : kv ∈ inferTipoProduto t p) : kv.1 = "tipo_produto" := by
  unfold inferTipoProduto at h
  repeat' split at h
  all_goals simp at h
  all_goals first | rw [h] | rw [h.2]

theorem inferModeloOperacional_key (t : String) (p : Profile) (kv : String × PyVal)
    (h : kv ∈ inferModeloOperacional t p) : kv.1 = "modelo_operacional" := by
  unfold inferModeloOperacional at h
  repeat' split at h
  all_goals simp at h
  all_goals first | rw [h] | rw [h.2]

theorem inferCanais_key (t : String) (p : Profile) (kv : String × PyVal)
    (h : kv ∈ inferCanais t p) : kv.1 = "canais_venda" := by
  unfold inferCanais at h
  repeat' split at h
  all_goals simp at h
  all_goals first | rw [h] | rw [h.2]

theorem inferNumFunc_key (t : String) (p : Profile) (kv : String × PyVal)
    (h : kv ∈ inferNumFunc t p) : kv.1 = "num_funcionarios" := by
  unfold inferNumFunc at h
  repeat' split at h
  all_goals simp at h
  all_goals first | rw [h] | rw [h.2]

theorem inferInstagram_key (cs : List Char) (p : Profile) (kv : String × PyVal)
    (h : kv ∈ inferInstagram cs p) : kv.1 = "instagram_handle" := by
  unfold inferInstagram at h
  repeat' split at h
  all_goals simp at h
  all_goals first | rw [h] | rw [h.2]

theorem inferSite_key (cs : List Char) (p : Profile) (kv : String × PyVal)
    (h : kv ∈ inferSite cs p) : kv.1 = "site_url" := by
  unfold inferSite at h
  repeat' split at h
  all_goals simp at h
  all_goals first | rw [h] | rw [h.2]

theorem inferLinkedin_key (cs : List Char) (p : Profile) (kv : String × PyVal)
    (h : kv ∈ inferLinkedin cs p) : kv.1 = "linkedin_url" := by
  unfold inferLinkedin at h
  repeat' split at h
  all_goals simp at h
  all_goals first | rw [h] | rw [h.2]

theorem inferWhatsapp_key (cs : List Char) (p : Profile) (kv : String × PyVal)
    (h : kv ∈ inferWhatsapp cs p) : kv.1 = "whatsapp_numero" := by
  unfold inferWhatsapp at h
  repeat' split at h
  all_goals simp at h
  all_goals first | rw [h] | rw [h.2]

theorem inferEmail_key (cs : List Char) (p : Profile) (kv : String × PyVal)
    (h : kv ∈ inferEmail cs p) : kv.1 = "email_contato" := by
  unfold inferEmail at h
  repeat' split at h
  all_goals simp at h
  all_goals first | rw [h] | rw [h.2]

theorem inferMaps_key (cs : List Char) (p : Profile) (kv : String × PyVal)
    (h : kv ∈ inferMaps cs p) : kv.1 = "google_maps_url" := by
  unfold inferMaps at h
  repeat' split at h
  all_goals simp at h
  all_goals first | rw [h] | rw [h.2]

/-- Every context-inferred entry targets one of the ten inferable fields. -/
theorem infer_keys (messages : List Msg) (p : Profile) (kv : String × PyVal)
    (h : kv ∈ (infer_fields_from_context messages p).1) :
    kv.1 ∈ ["tipo_produto", "modelo_operacional", "canais_venda", "num_funcionarios",
      "instagram_handle", "site_url", "linkedin_url", "whatsapp_numero",
      "email_contato", "google_maps_url"] := by
  simp only [infer_fields_from_context, List.mem_append] at h
  rcases h with ((((((((h|h)|h)|h)|h)|h)|h)|h)|h)|h
  · rw [inferTipoProduto_key _ _ _ h]; decide
  · rw [inferModeloOperacional_key _ _ _ h]; decide
  · rw [inferCanais_key _ _ _ h]; decide
  · rw [inferNumFunc_key _ _ _ h]; decide
  · rw [inferInstagram_key _ _ _ h]; decide
  · rw [inferSite_key _ _ _ h]; decide
  · rw [inferLinkedin_key _ _ _ h]; decide
  · rw [inferWhatsapp_key _ _ _ h]; decide
  · rw [inferEmail_key _ _ _ h]; decide
  · rw [inferMaps_key _ _ _ h]; decide

/-- Auto-inference never touches the research meta-keys. -/
theorem autoInfer_meta_frame (messages : List Msg) (m : String) (p : Profile)
    (K : String) (hK : startsWithStr K "_" = true) :
    pget (autoInfer messages m p) K = pget p K := by
  unfold autoInfer
  rw [applyInferred_frame]
  · show pget (infer_fields_from_context _ p).2 K = pget p K
    simp only [infer_fields_from_context]
    split
    · apply pget_ppop_ne
      intro hKs
      rw [hKs] at hK
      exact absurd hK (by decide)
    · rfl
  · intro kv hkv hke
    have hmem := infer_keys _ _ _ hkv
    rw [hke] at hmem
    revert hK
    simp only [List.mem_cons, List.not_mem_nil, or_false] at hmem
    rcases hmem with h|h|h|h|h|h|h|h|h|h <;> rw [h] <;> decide

theorem keywordMapRows_fields (s l : String) :
    (keywordMapRows s l).map (fun r => r.2.1) =
      [some "concorrentes", some "cliente_ideal", some "cliente_ideal",
       some "diferencial", some "margem_lucro", some "margem_lucro",
       some "ticket_medio", some "ticket_medio", some "principal_gargalo",
       some "principal_gargalo", some "origem_clientes", some "maior_objecao",
       none, none] := rfl


/-- A proactive-search decision only ever targets a researchable field. -/
theorem ssp_field_researchable (m : String) (messages : List Msg) (p : Profile)
    (f : String)
    (hf : (should_search_proactively m messages p).field = some f) :
    isResearchable f = true := by
  have hrows : ∀ x ∈ [some "concorrentes", some "cliente_ideal", some "cliente_ideal",
       some "diferencial", some "margem_lucro", some "margem_lucro",
       some "ticket_medio", some "ticket_medio", some "principal_gargalo",
       some "principal_gargalo", some "origem_clientes", some "maior_objecao",
       (none : Option String), none],
      (match x with | some g => isResearchable g | none => true) = true := by decide
  simp only [should_search_proactively] at hf
  split at hf
  · split at hf
    · split at hf
      · rename_i f' heqF x cfg heq
        have hff : f' = f := by simpa using hf
        subst hff
        simp [isResearchable, heq]
      · simp [noSearch] at hf
    · split at hf
      · rename_i row heq
        have hmem : row.2.1 ∈ (keywordMapRows (fstr p "segmento")
            (fstr p "localizacao")).map (fun r => r.2.1) :=
          List.mem_map_of_mem _ (List.mem_of_find?_eq_some heq)
        rw [keywordMapRows_fields] at hmem
        have h2 := hrows _ hmem
        have hrf : row.2.1 = some f := by simpa using hf
        rw [hrf] at h2
        simpa using h2
      · split at hf
        · simp at hf
        · simp at hf
  · split at hf
    · simp at hf
    · split at hf
      · simp at hf
      · simp [noSearch] at hf

theorem searchPhase_field_researchable (m : String) (messages : List Msg)
    (p : Profile) (jr : Bool) (so : SearchRes) (f : String)
    (hf : (searchPhase m messages p jr so).field = some f) :
    isResearchable f = true := by
  cases jr with
  | true =>
    simp [searchPhase, noSearch] at hf
  | false =>
    simp only [searchPhase, Bool.false_eq_true, if_false] at hf
    split at hf
    · exact ssp_field_researchable m messages p f (by simpa using hf)
    · split at hf
      · exact ssp_field_researchable m messages p f (by simpa using hf)
      · split at hf
        · split at hf
          · simp at hf
          · rename_i F heq hrel
            have hFf : F = f := by simpa using hf
            subst hFf
            exact ssp_field_researchable m messages p F heq
        · simp at hf

/-! ## Monotonicity of the fields-researched set -/

theorem pgetD_pset_ne (p : Profile) (f g : String) (v d : PyVal) (h : g ≠ f) :
    pgetD (pset p f v) g d = pgetD p g d := by
  simp only [pgetD]
  rw [pfind?_pset_ne _ _ _ _ h]

theorem getStrList_pgetD (p : Profile) (K : String) :
    getStrList (pgetD p K (.vlist [])) = getStrList (pget p K) := by
  simp only [pgetD, pget]
  cases pfind? p K <;> rfl

theorem getStrList_vlist (l : List String) : getStrList (.vlist l) = l := rfl

theorem getStrList_not_truthy (v : PyVal) (h : v.truthy = false) :
    getStrList v = [] := by
  cases v <;> simp_all [PyVal.truthy, getStrList]

/-- The pending-resolution step only ever appends to `_fields_researched`. -/
theorem resolve_pending_fr (p : Profile) (m : String) (x : String)
    (hx : x ∈ getStrList (pget p "_fields_researched")) :
    x ∈ getStrList (pget (resolve_pending p m).profile "_fields_researched") := by
  simp only [resolve_pending]
  cases pget p "_research_pending" with
  | vpend f v t =>
    dsimp only
    by_cases hm : m = ""
    · rw [if_pos hm]; exact hx
    · rw [if_neg hm]
      have hsup : x ∈ (if f ∈ getStrList (pgetD p "_fields_researched" (.vlist []))
          then getStrList (pgetD p "_fields_researched" (.vlist []))
          else getStrList (pgetD p "_fields_researched" (.vlist [])) ++ [f]) := by
        rw [getStrList_pgetD]
        split
        · exact hx
        · exact List.mem_append_left _ hx
      by_cases hc : detect_research_response m = "confirm" ∨
          stillDontKnowRx.research (pyStrip (pyLower m)) = true
      · rw [if_pos hc]
        rw [pget_ppop_ne _ _ _ (by decide), pget_pset_self]
        simpa using hsup
      · rw [if_neg hc]
        by_cases hr : detect_research_response m = "reject"
        · rw [if_pos hr]
          rw [pget_ppop_ne _ _ _ (by decide), pget_pset_self]
          simpa using hsup
        · rw [if_neg hr]
          rw [pget_ppop_ne _ _ _ (by decide), pget_pset_self]
          simpa using hsup
  | vnone => exact hx
  | vstr s => exact hx
  | vlist l => exact hx
  | vtasks ts => exact hx

/-- The search phase only ever appends to `_fields_researched`. -/
theorem searchPhase_fr (m : String) (messages : List Msg) (p : Profile)
    (jr : Bool) (so : SearchRes) (x : String)
    (hx : x ∈ getStrList (pget p "_fields_researched")) :
    x ∈ getStrList (pget (searchPhase m messages p jr so).profile
      "_fields_researched") := by
  simp only [searchPhase]
  generalize (if jr = true then noSearch else should_search_proactively m messages p) = d
  split
  · exact hx
  · split
    · exact hx
    · cases d.field with
      | none => exact hx
      | some F =>
        dsimp only
        split
        · rw [pget_pset_self]
          rw [pgetD_pset_ne _ _ _ _ _ (by decide), getStrList_pgetD]
          split
          · exact hx
          · exact List.mem_append_left _ hx
        · exact hx

theorem fixUpd_pfind_frame (upd : Profile) (m : String) (K : String)
    (h1 : K ≠ "modelo") (h2 : K ≠ "segmento") (h3 : K ≠ "nome_negocio") :
    pfind? (fixUpd upd m) K = pfind? upd K := by
  have e1 : ∀ (q : Profile) (v : PyVal), pfind? (pset q "modelo" v) K = pfind? q K :=
    fun q v => pfind?_pset_ne q _ _ v h1
  have e2 : ∀ (q : Profile) (v : PyVal), pfind? (pset q "segmento" v) K = pfind? q K :=
    fun q v => pfind?_pset_ne q _ _ v h2
  have e3 : ∀ (q : Profile) (v : PyVal), pfind? (pset q "nome_negocio" v) K = pfind? q K :=
    fun q v => pfind?_pset_ne q _ _ v h3
  simp only [fixUpd]
  repeat' split
  all_goals simp only [e1, e2, e3]

theorem fixUpd_nodup (upd : Profile) (m : String)
    (h : (pkeys upd).Nodup) : (pkeys (fixUpd upd m)).Nodup := by
  simp only [fixUpd]
  repeat' split
  all_goals (repeat apply pset_nodup)
  all_goals exact h

theorem syncCapital_pget_frame (c : Profile) (K : String)
    (h1 : K ≠ "capital_disponivel") (h2 : K ≠ "investimento_marketing") :
    pget (syncCapital c) K = pget c K := by
  have e1 : ∀ (q : Profile) (v : PyVal), pget (pset q "capital_disponivel" v) K = pget q K :=
    fun q v => pget_pset_ne q _ _ v h1
  have e2 : ∀ (q : Profile) (v : PyVal), pget (pset q "investimento_marketing" v) K = pget q K :=
    fun q v => pget_pset_ne q _ _ v h2
  simp only [syncCapital]
  repeat' split
  all_goals simp only [e1, e2]

theorem soloInfer_pget_frame (c : Profile) (m : String) (messages : List Msg)
    (K : String) (h1 : K ≠ "num_funcionarios") :
    pget (soloInfer c m messages) K = pget c K := by
  have e1 : ∀ (q : Profile) (v : PyVal), pget (pset q "num_funcionarios" v) K = pget q K :=
    fun q v => pget_pset_ne q _ _ v h1
  simp only [soloInfer]
  repeat' split
  all_goals simp only [e1]

/-- The validator passes a `_fields_researched` proposal through unchanged
only when it already equals the stored value; every other proposal is dropped. -/
theorem validateOne_fr (v : PyVal) (ul : String) (P3 : Profile)
    (hv : v = pget P3 "_fields_researched" ∨ v.truthy = false) :
    validateOne "_fields_researched" v ul P3 = none ∨
    (v = pget P3 "_fields_researched" ∧
      validateOne "_fields_researched" v ul P3 = some (pget P3 "_fields_researched")) := by
  by_cases ht : v.truthy = true
  · rcases hv with hv | hv
    · right
      refine ⟨hv, ?_⟩
      simp only [validateOne]
      rw [if_neg (by simpa using ht), if_neg (by decide),
        if_neg (fun hh => by exact absurd hh.1 (by decide)),
        if_neg (fun hh => by exact absurd hh.1 (by decide)),
        if_neg (fun hh => by exact absurd hh.1 (by decide)),
        if_pos (hv ▸ ht), if_neg (fun hh => hh.1 hv)]
    · rw [hv] at ht
      exact absurd ht (by decide)
  · left
    simp only [validateOne]
    rw [if_pos (by simpa using ht)]

theorem validate_fr_cases (u : Profile) (text : String) (P3 : Profile)
    (hnd : (pkeys u).Nodup)
    (hK : ∀ v, pfind? u "_fields_researched" = some v →
      v = pget P3 "_fields_researched" ∨ v.truthy = false) :
    pget (validate_extraction u text P3) "_fields_researched" = PyVal.vnone ∨
    pget (validate_extraction u text P3) "_fields_researched" =
      pget P3 "_fields_researched" := by
  rw [validate_extraction_pget _ _ _ _ hnd]
  cases hfu : pfind? u "_fields_researched" with
  | none => exact Or.inl rfl
  | some v =>
    dsimp only
    rcases validateOne_fr v (pyLower text) P3 (hK v hfu) with hvo | ⟨hveq, hvo⟩
    · rw [hvo]
      exact Or.inl rfl
    · rw [hvo]
      exact Or.inr rfl

theorem fr_preserve_val (C W : PyVal) (x : String)
    (hcl : C = PyVal.vnone ∨ C = W) (hx : x ∈ getStrList W) :
    x ∈ getStrList (if ¬ C.truthy ∧ W.truthy then W else C) := by
  rcases hcl with rfl | rfl
  · by_cases hw : W.truthy = true
    · rw [if_pos ⟨by decide, hw⟩]
      exact hx
    · rw [getStrList_not_truthy W (by simpa using hw)] at hx
      exact absurd hx (List.not_mem_nil x)
  · split <;> exact hx

/-- The merge phase can only keep or restore the `_fields_researched` set, as
long as the raw update's own proposal for it is untruthy or a verbatim echo. -/
theorem mergePhase_fr (upd : Profile) (m : String) (messages : List Msg)
    (P3 : Profile)
    (hndu : (pkeys upd).Nodup) (hndp : (pkeys P3).Nodup)
    (hK : ∀ v, pfind? upd "_fields_researched" = some v →
      v = pget P3 "_fields_researched" ∨ v.truthy = false)
    (x : String) (hx : x ∈ getStrList (pget P3 "_fields_researched")) :
    x ∈ getStrList (pget (mergePhase upd m messages P3) "_fields_researched") := by
  have hcl : pget (if (if upd ≠ [] then fixUpd upd m else upd) ≠ [] then
        validate_extraction (if upd ≠ [] then fixUpd upd m else upd)
          (allUserText m messages) P3
      else P3) "_fields_researched" = PyVal.vnone ∨
      pget (if (if upd ≠ [] then fixUpd upd m else upd) ≠ [] then
        validate_extraction (if upd ≠ [] then fixUpd upd m else upd)
          (allUserText m messages) P3
      else P3) "_fields_researched" = pget P3 "_fields_researched" := by
    by_cases hu : upd ≠ []
    · rw [if_pos hu]
      by_cases hu2 : fixUpd upd m ≠ []
      · rw [if_pos hu2]
        exact validate_fr_cases _ _ _ (fixUpd_nodup _ _ hndu) (fun v hv => hK v
          (by rwa [fixUpd_pfind_frame _ _ _ (by decide) (by decide) (by decide)] at hv))
      · rw [if_neg hu2]
        exact Or.inr rfl
    · rw [if_neg hu, if_neg hu]
      exact Or.inr rfl
  simp only [mergePhase]
  rw [autoInfer_meta_frame _ _ _ _ (by decide),
    soloInfer_pget_frame _ _ _ _ (by decide),
    syncCapital_pget_frame _ _ (by decide) (by decide)]
  simp only [preserveRequired]
  rw [preserveList_frame _ _ _ _ (by decide),
    preserveFields_pget _ _ _ hndp]
  exact fr_preserve_val _ _ x hcl hx

theorem pendingSetPhase_fr (sug : PyVal) (fld : Option String) (p3 c : Profile)
    (r : Option String)
    (hF : ∀ F, fld = some F → isResearchable F = true) :
    pget (pendingSetPhase sug fld p3 c r).1 "_fields_researched" =
      pget c "_fields_researched" := by
  cases fld with
  | none => rfl
  | some F =>
    have hFK : F ≠ "_fields_researched" := by
      intro he
      have h := hF F rfl
      rw [he] at h
      exact absurd h (by decide)
    simp only [pendingSetPhase]
    repeat' split
    all_goals dsimp only
    all_goals try rfl
    all_goals rw [pget_pset_ne _ _ _ _ (Ne.symm hFK), pget_pset_ne _ _ _ _ (by decide)]

theorem metaPreserve_fr (c P3 : Profile) (x : String)
    (hx : x ∈ getStrList (pget c "_fields_researched"))
    (hx3 : x ∈ getStrList (pget P3 "_fields_researched")) :
    x ∈ getStrList (pget (metaPreserve c P3) "_fields_researched") := by
  have hC : ∀ q : Profile, pget (if (pget P3 "_research_tasks").truthy = true ∧
      ¬ (pget q "_research_tasks").truthy = true then
        pset q "_research_tasks" (pget P3 "_research_tasks") else q)
      "_fields_researched" = pget q "_fields_researched" := by
    intro q
    split
    · exact pget_pset_ne _ _ _ _ (by decide)
    · rfl
  simp only [metaPreserve]
  by_cases h2 : (pget P3 "_fields_researched").truthy = true ∧
      ¬ (pget (if (pget P3 "_research_tasks").truthy = true ∧
          ¬ (pget c "_research_tasks").truthy = true then
        pset c "_research_tasks" (pget P3 "_research_tasks") else c)
        "_fields_researched").truthy = true
  · rw [if_pos h2, pget_pset_self]
    exact hx3
  · rw [if_neg h2, hC]
    exact hx

theorem mem_extend (fr : List String) (ff x : String) (c : Prop) [Decidable c]
    (hx : x ∈ fr) : x ∈ (if c then fr else fr ++ [ff]) := by
  split
  · exact hx
  · exact List.mem_append_left _ hx

theorem cascade_fr (m : String) (messages : List Msg) (c : Profile)
    (r0 : Option String) (dk : Bool) (ff : Option String) (x : String)
    (hx : x ∈ getStrList (pget c "_fields_researched")) :
    x ∈ getStrList (pget (cascade m messages c r0 dk ff).2 "_fields_researched") := by
  simp only [cascade]
  repeat' split
  all_goals dsimp only
  all_goals try exact hx
  all_goals
    rw [pget_pset_self, pgetD_pset_ne _ _ _ _ _ (by decide), getStrList_pgetD]
  all_goals rw [getStrList_vlist]
  all_goals first
    | exact mem_extend _ _ _ _ hx
    | exact List.mem_append_left _ hx
    | exact hx

theorem captureSuggestion_nodup (fld : Option String) (b : Bool) (u : Profile)
    (h : (pkeys u).Nodup) : (pkeys (captureSuggestion fld b u).2).Nodup := by
  cases fld <;> cases b <;> simp only [captureSuggestion]
  all_goals try exact h
  split
  · exact pset_nodup _ _ _ h
  · exact h

theorem captureSuggestion_pfind_fr (fld : Option String) (b : Bool) (u : Profile)
    (hF : ∀ F, fld = some F → isResearchable F = true) :
    pfind? (captureSuggestion fld b u).2 "_fields_researched" =
      pfind? u "_fields_researched" := by
  cases fld with
  | none => cases b <;> rfl
  | some F =>
    have hFK : F ≠ "_fields_researched" := by
      intro he
      have h := hF F rfl
      rw [he] at h
      exact absurd h (by decide)
    cases b with
    | false => rfl
    | true =>
      simp only [captureSuggestion]
      split
      · exact pfind?_pset_ne _ _ _ _ (Ne.symm hFK)
      · rfl

/-- C7 counterexample: a turn whose language-model update itself proposes a
`_fields_researched` value (`["x"]`, grounded because the user text mentions
"x") passes validation and REPLACES the stored set `["concorrentes"]`:
the returned set no longer contains "concorrentes", so the fields-researched
set is not monotonic over arbitrary turns. -/
theorem research_set_monotonic_counterexample :
    "concorrentes" ∈ getStrList (pget
      [("nome_negocio", PyVal.vstr "Doce Lar"), ("segmento", PyVal.vstr "confeitaria"),
       ("localizacao", PyVal.vstr "Campinas"),
       ("_fields_researched", PyVal.vlist ["concorrentes"])] "_fields_researched") ∧
    pget (run_chat true [⟨"user", "oi"⟩] "pode usar x como referencia"
      [("nome_negocio", PyVal.vstr "Doce Lar"), ("segmento", PyVal.vstr "confeitaria"),
       ("localizacao", PyVal.vstr "Campinas"),
       ("_fields_researched", PyVal.vlist ["concorrentes"])]
      ⟨"", []⟩ (some ⟨some "Certo! E qual o modelo do negócio?",
        some [("_fields_researched", PyVal.vlist ["x"])]⟩)).extracted_profile
      "_fields_researched" = PyVal.vlist ["x"] ∧
    "concorrentes" ∉ getStrList (PyVal.vlist ["x"]) :=
  ⟨by decide, by decide, by decide⟩

/-- C7 (amended): the fields-researched set is monotonic across a turn as long
as the language model's update does not itself carry a truthy
`_fields_researched` entry (the engine's own code paths only ever append to the
set; the one shrinking path is a model update that overwrites it — see the
counterexample). -/
theorem research_set_monotonic (messages : List Msg) (m : String) (prev : Profile)
    (so : SearchRes) (llmRes : Option GenOut)
    (hnd : (pkeys prev).Nodup)
    (hllm : ∀ g u, llmRes = some g → g.upd = some u →
      (pkeys u).Nodup ∧
      ∀ v, pfind? u "_fields_researched" = some v → v.truthy = false)
    (x : String) (hx : x ∈ getStrList (pget prev "_fields_researched")) :
    x ∈ getStrList (pget
      (run_chat true messages m prev so llmRes).extracted_profile
      "_fields_researched") := by
  simp only [run_chat]
  rw [if_neg (by simp)]
  have h1 := resolve_pending_fr prev m x hx
  split
  · exact h1
  · dsimp only
    have hnd1 := resolve_pending_nodup prev m hnd
    have h2 : x ∈ getStrList (pget (autoInfer messages m (resolve_pending prev m).profile)
        "_fields_researched") := by
      rw [autoInfer_meta_frame messages m (resolve_pending prev m).profile
        "_fields_researched" (by decide)]
      exact h1
    have hnd2 := autoInfer_nodup messages m _ hnd1
    have h3 := searchPhase_fr m messages _ (resolve_pending prev m).justResolved so x h2
    have hnd3 := searchPhase_nodup m messages _ (resolve_pending prev m).justResolved so hnd2
    have hFfld : ∀ F, (searchPhase m messages
        (autoInfer messages m (resolve_pending prev m).profile)
        (resolve_pending prev m).justResolved so).field = some F →
        isResearchable F = true :=
      fun F hF => searchPhase_field_researchable _ _ _ _ _ _ hF
    have hnd0 : (pkeys ((effectiveGen llmRes (searchPhase m messages
        (autoInfer messages m (resolve_pending prev m).profile)
        (resolve_pending prev m).justResolved so).profile).upd.getD
        (searchPhase m messages
        (autoInfer messages m (resolve_pending prev m).profile)
        (resolve_pending prev m).justResolved so).profile)).Nodup := by
      cases hg : llmRes with
      | none => exact hnd3
      | some g =>
        cases hu : g.upd with
        | none =>
          simp only [effectiveGen, Option.getD, hu]
          exact hnd3
        | some u =>
          simp only [effectiveGen, Option.getD, hu]
          exact (hllm g u hg hu).1
    have hK0 : ∀ v, pfind? ((effectiveGen llmRes (searchPhase m messages
        (autoInfer messages m (resolve_pending prev m).profile)
        (resolve_pending prev m).justResolved so).profile).upd.getD
        (searchPhase m messages
        (autoInfer messages m (resolve_pending prev m).profile)
        (resolve_pending prev m).justResolved so).profile) "_fields_researched" = some v →
        v = pget (searchPhase m messages
        (autoInfer messages m (resolve_pending prev m).profile)
        (resolve_pending prev m).justResolved so).profile "_fields_researched" ∨
        v.truthy = false := by
      intro v hv
      cases hg : llmRes with
      | none =>
        left
        rw [hg] at hv
        simp only [effectiveGen, Option.getD] at hv
        simp only [pget, hv, Option.getD]
      | some g =>
        cases hu : g.upd with
        | none =>
          left
          rw [hg] at hv
          simp only [effectiveGen, Option.getD, hu] at hv
          simp only [pget, hv, Option.getD]
        | some u =>
          right
          rw [hg] at hv
          simp only [effectiveGen, Option.getD, hu] at hv
          exact (hllm g u hg hu).2 v hv
    have hcap_nd := captureSuggestion_nodup
      (searchPhase m messages (autoInfer messages m (resolve_pending prev m).profile)
        (resolve_pending prev m).justResolved so).field
      (searchPhase m messages (autoInfer messages m (resolve_pending prev m).profile)
        (resolve_pending prev m).justResolved so).performed _ hnd0
    have hcap_fr := captureSuggestion_pfind_fr
      (searchPhase m messages (autoInfer messages m (resolve_pending prev m).profile)
        (resolve_pending prev m).justResolved so).field
      (searchPhase m messages (autoInfer messages m (resolve_pending prev m).profile)
        (resolve_pending prev m).justResolved so).performed
      ((effectiveGen llmRes (searchPhase m messages
        (autoInfer messages m (resolve_pending prev m).profile)
        (resolve_pending prev m).justResolved so).profile).upd.getD
        (searchPhase m messages
        (autoInfer messages m (resolve_pending prev m).profile)
        (resolve_pending prev m).justResolved so).profile) hFfld
    have h4 := mergePhase_fr _ m messages _ hcap_nd hnd3
      (fun v hv => hK0 v (by rwa [hcap_fr] at hv)) x h3
    have h5 : x ∈ getStrList (pget (pendingSetPhase
        (captureSuggestion (searchPhase m messages
          (autoInfer messages m (resolve_pending prev m).profile)
          (resolve_pending prev m).justResolved so).field
          (searchPhase m messages
          (autoInfer messages m (resolve_pending prev m).profile)
          (resolve_pending prev m).justResolved so).performed
          ((effectiveGen llmRes (searchPhase m messages
            (autoInfer messages m (resolve_pending prev m).profile)
            (resolve_pending prev m).justResolved so).profile).upd.getD
            (searchPhase m messages
            (autoInfer messages m (resolve_pending prev m).profile)
            (resolve_pending prev m).justResolved so).profile)).1
        (searchPhase m messages
          (autoInfer messages m (resolve_pending prev m).profile)
          (resolve_pending prev m).justResolved so).field
        (searchPhase m messages
          (autoInfer messages m (resolve_pending prev m).profile)
          (resolve_pending prev m).justResolved so).profile
        (mergePhase (captureSuggestion (searchPhase m messages
          (autoInfer messages m (resolve_pending prev m).profile)
          (resolve_pending prev m).justResolved so).field
          (searchPhase m messages
          (autoInfer messages m (resolve_pending prev m).profile)
          (resolve_pending prev m).justResolved so).performed
          ((effectiveGen llmRes (searchPhase m messages
            (autoInfer messages m (resolve_pending prev m).profile)
            (resolve_pending prev m).justResolved so).profile).upd.getD
            (searchPhase m messages
            (autoInfer messages m (resolve_pending prev m).profile)
            (resolve_pending prev m).justResolved so).profile)).2 m messages
          (searchPhase m messages
            (autoInfer messages m (resolve_pending prev m).profile)
            (resolve_pending prev m).justResolved so).profile)
        (echoFilter (replyReset (replyOfGen (effectiveGen llmRes (searchPhase m messages
          (autoInfer messages m (resolve_pending prev m).profile)
          (resolve_pending prev m).justResolved so).profile))) m)).1
        "_fields_researched") := by
      rw [pendingSetPhase_fr _ _ _ _ _ hFfld]
      exact h4
    have h6 := metaPreserve_fr _ _ x h5 h3
    exact cascade_fr _ _ _ _ _ _ x h6

theorem research_set_monotonic_witness :
    "concorrentes" ∈ getStrList (pget
      (run_chat true [⟨"user", "oi"⟩] "vendo moda feminina"
        [("nome_negocio", PyVal.vstr "Doce Lar"),
         ("_fields_researched", PyVal.vlist ["concorrentes"])]
        ⟨"", []⟩ (some ⟨some "Certo! E onde fica?",
          some [("segmento", PyVal.vstr "moda feminina")]⟩)).extracted_profile
      "_fields_researched") :=
  research_set_monotonic [⟨"user", "oi"⟩] "vendo moda feminina"
    [("nome_negocio", PyVal.vstr "Doce Lar"),
     ("_fields_researched", PyVal.vlist ["concorrentes"])]
    ⟨"", []⟩ (some ⟨some "Certo! E onde fica?",
      some [("segmento", PyVal.vstr "moda feminina")]⟩)
    (by decide)
    (by
      intro g u hg hu
      cases hg
      cases hu
      exact ⟨by decide, fun v hv => Option.noConfusion hv⟩)
    "concorrentes" (by decide)

theorem metaPreserve_pget_frame (c P3 : Profile) (K : String)
    (h1 : K ≠ "_research_tasks") (h2 : K ≠ "_fields_researched") :
    pget (metaPreserve c P3) K = pget c K := by
  have hC : ∀ q : Profile, pget (if (pget P3 "_research_tasks").truthy = true ∧
      ¬ (pget q "_research_tasks").truthy = true then
        pset q "_research_tasks" (pget P3 "_research_tasks") else q)
      K = pget q K := by
    intro q
    split
    · exact pget_pset_ne _ _ _ _ h1
    · rfl
  simp only [metaPreserve]
  by_cases hcond : (pget P3 "_fields_researched").truthy = true ∧
      ¬ (pget (if (pget P3 "_research_tasks").truthy = true ∧
          ¬ (pget c "_research_tasks").truthy = true then
        pset c "_research_tasks" (pget P3 "_research_tasks") else c)
        "_fields_researched").truthy = true
  · rw [if_pos hcond, pget_pset_ne _ _ _ _ h2, hC]
  · rw [if_neg hcond, hC]

/-- When the pending-installation branch fires, the researched field reads as
`None` and the pending record holds the captured suggestion. -/
theorem pendingSetPhase_install_pget (sug : PyVal) (F : String) (p3 c : Profile)
    (r : Option String)
    (hs : sug.truthy = true) (hp : (pget p3 F).truthy = false)
    (hF : F ≠ "_research_pending") :
    pget (pendingSetPhase sug (some F) p3 c r).1 F = PyVal.vnone ∧
    ∃ td, pget (pendingSetPhase sug (some F) p3 c r).1 "_research_pending" =
      PyVal.vpend F sug td := by
  simp only [pendingSetPhase]
  rw [if_neg (by simp [hs]), if_pos (by simp [hp])]
  constructor
  · split
    all_goals dsimp only
    all_goals rw [pget_pset_self]
  · refine ⟨formatTaskTemplate (((rfind? RESEARCHABLE_FIELDS F).map (·.2.2)).getD
        "Aprofundar pesquisa")
      (pyStr (pgetD c "nome_negocio" (.vstr "o negócio")))
      (pyStr (pgetD c "localizacao" (.vstr "")))
      (pyStr (pgetD c "segmento" (.vstr ""))), ?_⟩
    split
    all_goals dsimp only
    all_goals rw [pget_pset_ne _ _ _ _ (Ne.symm hF), pget_pset_self]

/-- C6 counterexample: with an empty user message the pending record is
carried over unresolved, while a grounded language-model proposal for the same
field passes validation — the returned profile holds a pending record for
"concorrentes" AND a truthy collected value for it simultaneously. -/
theorem pending_field_absent_counterexample :
    pget (run_chat true [⟨"user", "a loja b vende mais que a gente"⟩] ""
      [("_research_pending", PyVal.vpend "concorrentes" (PyVal.vstr "Loja A") "t"),
       ("segmento", PyVal.vstr "confeitaria")]
      ⟨"", []⟩ (some ⟨some "Anotei! Loja B é concorrente.",
        some [("concorrentes", PyVal.vstr "loja b")]⟩)).extracted_profile
      "_research_pending" = PyVal.vpend "concorrentes" (PyVal.vstr "Loja A") "t" ∧
    (pget (run_chat true [⟨"user", "a loja b vende mais que a gente"⟩] ""
      [("_research_pending", PyVal.vpend "concorrentes" (PyVal.vstr "Loja A") "t"),
       ("segmento", PyVal.vstr "confeitaria")]
      ⟨"", []⟩ (some ⟨some "Anotei! Loja B é concorrente.",
        some [("concorrentes", PyVal.vstr "loja b")]⟩)).extracted_profile
      "concorrentes").truthy = true :=
  ⟨by decide, by decide⟩

/-- C6 (amended): whenever a turn itself installs a pending research record —
the search phase tagged a researchable field `F`, the captured suggestion is
truthy and `F` was not already collected — the returned profile reads `F` as
`None` and carries the pending record for `F` with that suggestion.  (The
unqualified claim is false for records carried over from earlier turns: an
empty user message skips resolution while a grounded model proposal can fill
the pending field — see the counterexample.) -/
theorem pending_field_absent (messages : List Msg) (m : String) (prev : Profile)
    (so : SearchRes) (llm : Option GenOut) (F : String) (SUG : PyVal)
    (hng : ¬ (messages = [] ∧ m = ""))
    (hfld : (searchPhase m messages (autoInfer messages m (resolve_pending prev m).profile)
      (resolve_pending prev m).justResolved so).field = some F)
    (hsug : SUG = (captureSuggestion
      (searchPhase m messages (autoInfer messages m (resolve_pending prev m).profile)
        (resolve_pending prev m).justResolved so).field
      (searchPhase m messages (autoInfer messages m (resolve_pending prev m).profile)
        (resolve_pending prev m).justResolved so).performed
      ((effectiveGen llm (searchPhase m messages
          (autoInfer messages m (resolve_pending prev m).profile)
          (resolve_pending prev m).justResolved so).profile).upd.getD
        (searchPhase m messages (autoInfer messages m (resolve_pending prev m).profile)
          (resolve_pending prev m).justResolved so).profile)).1)
    (hst : SUG.truthy = true)
    (hP3F : (pget (searchPhase m messages
      (autoInfer messages m (resolve_pending prev m).profile)
      (resolve_pending prev m).justResolved so).profile F).truthy = false) :
    pget (run_chat true messages m prev so llm).extracted_profile F = PyVal.vnone ∧
    ∃ td, pget (run_chat true messages m prev so llm).extracted_profile
      "_research_pending" = PyVal.vpend F SUG td := by
  have hR := searchPhase_field_researchable _ _ _ _ _ _ hfld
  have hF1 : F ≠ "_research_pending" := fun he => absurd (he ▸ hR) (by decide)
  have hF2 : F ≠ "_research_tasks" := fun he => absurd (he ▸ hR) (by decide)
  have hF3 : F ≠ "_fields_researched" := fun he => absurd (he ▸ hR) (by decide)
  subst hsug
  rw [hfld] at hst
  simp only [run_chat]
  rw [if_neg (by simp), if_neg hng]
  dsimp only
  rw [hfld]
  constructor
  · rw [cascade_field_pget _ _ _ _ _ _ _ hF2 hF3,
      metaPreserve_pget_frame _ _ _ hF2 hF3]
    exact (pendingSetPhase_install_pget _ _ _ _ _ hst hP3F hF1).1
  · obtain ⟨td, htd⟩ := (pendingSetPhase_install_pget _ F _ _ _ hst hP3F hF1).2
    refine ⟨td, ?_⟩
    rw [cascade_field_pget _ _ _ _ _ _ _ (by decide) (by decide),
      metaPreserve_pget_frame _ _ _ (by decide) (by decide)]
    exact htd

theorem pending_field_absent_witness :
    pget (run_chat true [⟨"assistant", "Quais são seus principais concorrentes?"⟩]
      "não sei quais são"
      [("nome_negocio", PyVal.vstr "Doce Lar"), ("segmento", PyVal.vstr "brownies"),
       ("modelo", PyVal.vstr "B2C"), ("localizacao", PyVal.vstr "Campinas"),
       ("dificuldades", PyVal.vstr "vendas"), ("objetivos", PyVal.vstr "crescer"),
       ("capital_disponivel", PyVal.vstr "500"), ("num_funcionarios", PyVal.vstr "2"),
       ("canais_venda", PyVal.vstr "rua"), ("cliente_ideal", PyVal.vstr "jovens"),
       ("ticket_medio", PyVal.vstr "20"), ("modelo_operacional", PyVal.vstr "propria"),
       ("faturamento_mensal", PyVal.vstr "3000"), ("tempo_operacao", PyVal.vstr "1 ano"),
       ("tipo_produto", PyVal.vstr "produto")]
      ⟨"os brownies da loja Y sao famosos na regiao", [⟨"t1", "u1"⟩]⟩
      (some ⟨some "ok", some [("concorrentes", PyVal.vstr "Loja Y")]⟩)).extracted_profile
      "concorrentes" = PyVal.vnone :=
  (pending_field_absent [⟨"assistant", "Quais são seus principais concorrentes?"⟩]
    "não sei quais são"
    [("nome_negocio", PyVal.vstr "Doce Lar"), ("segmento", PyVal.vstr "brownies"),
     ("modelo", PyVal.vstr "B2C"), ("localizacao", PyVal.vstr "Campinas"),
     ("dificuldades", PyVal.vstr "vendas"), ("objetivos", PyVal.vstr "crescer"),
     ("capital_disponivel", PyVal.vstr "500"), ("num_funcionarios", PyVal.vstr "2"),
     ("canais_venda", PyVal.vstr "rua"), ("cliente_ideal", PyVal.vstr "jovens"),
     ("ticket_medio", PyVal.vstr "20"), ("modelo_operacional", PyVal.vstr "propria"),
     ("faturamento_mensal", PyVal.vstr "3000"), ("tempo_operacao", PyVal.vstr "1 ano"),
     ("tipo_produto", PyVal.vstr "produto")]
    ⟨"os brownies da loja Y sao famosos na regiao", [⟨"t1", "u1"⟩]⟩
    (some ⟨some "ok", some [("concorrentes", PyVal.vstr "Loja Y")]⟩)
    "concorrentes" (PyVal.vstr "Loja Y")
    (by decide) (by decide) (by decide) (by decide) (by decide)).1
